import Mathlib

/-!
Verification development for the comment-triggered automation delivery
pipeline of the `cm-back` repository.

The definitions below are a shallow embedding of the Python sources:

* `app/services/comment_processor.py` (`CommentEvent.from_webhook_payload`,
  `CommentProcessor.process`, `_process_automation`, `_should_trigger`,
  `_already_sent`, `_send_dm`, `_reply_to_comment`,
  `_fetch_commenter_profile`, `_log_dm_sent`, `_log_comment_reply`);
* `app/services/rabbitmq_consumer.py` (`_process_message`);
* `app/worker.py` (`Worker.process_comment`);
* `app/schemas/automation.py` (`AutomationCreate.validate_message_content`,
  `AutomationUpdate`, `CarouselElement`, `CarouselButton`);
* `app/services/automation_repository.py` (`AutomationRepository.update`).

Python dictionaries parsed from JSON are modelled by the inductive `Json`
type; Python's `dict.get` (which raises `AttributeError` on a non-dict
receiver), truthiness, and `list[0]` indexing are modelled by explicit
`Except`-valued helpers, so that the `try/except` in
`from_webhook_payload` — which collapses every raised exception to
`None` — becomes `Except.toOption`.

External effects (the Instagram HTTP client including token decryption,
and database flushes) are modelled by outcome oracles in `ProcEnv`; a
database flush that raises is an uncaught infrastructure error and is
modelled as `Except.error`.  Observable side effects (dedup query, profile
fetch, DM dispatch, reply dispatch, ledger writes) are accumulated in an
`Act` trace so that ordering and invocation-count properties can be
stated.
-/

/-- A JSON-like Python value (the result of `json.loads`). -/
inductive Json where
  | null
  | bool (b : Bool)
  | num (n : Int)
  | str (s : String)
  | arr (elems : List Json)
  | obj (fields : List (String × Json))

mutual

/-- Structural equality of JSON values (Python `==` on decoded payloads). -/
def Json.beq : Json → Json → Bool
  | .null, .null => true
  | .bool a, .bool b => a == b
  | .num a, .num b => a == b
  | .str a, .str b => a == b
  | .arr xs, .arr ys => Json.beqList xs ys
  | .obj xs, .obj ys => Json.beqObj xs ys
  | _, _ => false
termination_by structural a => a

/-- Elementwise equality of JSON arrays. -/
def Json.beqList : List Json → List Json → Bool
  | [], [] => true
  | x :: xs, y :: ys => Json.beq x y && Json.beqList xs ys
  | _, _ => false
termination_by structural a => a

/-- Pairwise equality of JSON object field lists. -/
def Json.beqObj : List (String × Json) → List (String × Json) → Bool
  | [], [] => true
  | (k1, v1) :: xs, (k2, v2) :: ys => k1 == k2 && Json.beq v1 v2 && Json.beqObj xs ys
  | _, _ => false
termination_by structural a => a

end

/-- First-key-wins association lookup, the model of Python dict lookup
(dicts coming from `json.loads` have unique keys; objects with duplicate
keys keep the behaviour of taking the first binding). -/
def Json.lookup : List (String × Json) → String → Option Json
  | [], _ => none
  | (k', v) :: rest, k => if k' = k then some v else Json.lookup rest k

/-- Key lookup on a `Json` value: `some` only on objects that carry the key. -/
def Json.getKey? : Json → String → Option Json
  | .obj fs, k => Json.lookup fs k
  | _, _ => none

/-- Python `d.get(key, default)`: returns the stored value or the default on
a dict, and raises `AttributeError` (here `Except.error`) on any non-dict
receiver. -/
def pyGetD : Json → String → Json → Except Unit Json
  | .obj fs, k, d => .ok ((Json.lookup fs k).getD d)
  | _, _, _ => .error ()

/-- Python truthiness of a JSON value (`if not changes: …`). -/
def Json.truthy : Json → Bool
  | .null => false
  | .bool b => b
  | .num n => n != 0
  | .str s => !s.isEmpty
  | .arr xs => !xs.isEmpty
  | .obj fs => !fs.isEmpty

/-- Whether a JSON value equals a given Python string under `==`
(any non-string value compares unequal). -/
def jsonIsStr (j : Json) (s : String) : Bool :=
  match j with
  | .str t => t == s
  | _ => false

/-- Python `xs[0]` as used on the `changes` entry: succeeds exactly on a
non-empty list.  (Indexing a truthy non-list either raises immediately or —
for a non-empty string — yields a value whose subsequent `.get` raises;
both end in the same caught-exception path, so they are collapsed to one
error here.) -/
def pyIndex0 : Json → Except Unit Json
  | .arr (x :: _) => .ok x
  | _ => .error ()

/-- Python `s.lower()`, modelled per character (this matches CPython on
ASCII text; both sides lower-case character by character). -/
def pyLower (s : String) : String := String.mk (s.data.map Char.toLower)

/-- Python `s.replace("Z", "+00:00")`: every occurrence of the one-character
pattern `"Z"` is replaced by `"+00:00"`. -/
def pyReplaceZ (s : String) : String :=
  String.mk (s.data.foldr
    (fun c acc => (if c = 'Z' then ['+', '0', '0', ':', '0', '0'] else [c]) ++ acc) [])

/-- Drop leading whitespace characters. -/
def wsDrop (l : List Char) : List Char := l.dropWhile fun c => c.isWhitespace

/-- Python `s.strip()`: leading and trailing whitespace removed. -/
def pyStrip (s : String) : String :=
  String.mk (((wsDrop s.data).reverse |> wsDrop).reverse)

/-- Parse-time environment for `from_webhook_payload`: which strings
`datetime.fromisoformat` accepts, and the ISO rendering of
`datetime.now(timezone.utc)` at the moment of the parse.  The rendering of
the current time is always accepted back by `fromisoformat`. -/
structure ParseEnv where
  isoParsable : String → Bool
  nowIso : String
  nowParsable : isoParsable (pyReplaceZ nowIso) = true

/-- The eight non-timestamp fields of `CommentEvent`, exactly as the Python
dataclass stores whatever the payload carried (the dataclass does not
enforce its `str` annotations). -/
structure PreEvent where
  messageId : Json
  accountId : Json
  commentId : Json
  commentText : Json
  commenterId : Json
  commenterUsername : Json
  mediaId : Json
  mediaType : Json

/-- Parsed comment event (`CommentEvent` dataclass).  The timestamp is the
ISO string accepted by `datetime.fromisoformat`. -/
structure CommentEvent where
  messageId : Json
  accountId : Json
  commentId : Json
  commentText : Json
  commenterId : Json
  commenterUsername : Json
  mediaId : Json
  mediaType : Json
  timestamp : String

/-- The structural part of `CommentEvent.from_webhook_payload`
(`comment_processor.py` lines 72–98): extraction of `raw_payload`,
`changes`, the first change, its `field` tag, and the eight string fields
with their `""`/`{}` defaults.  Every raised exception and every explicit
`return None` of the source is an `Except.error`. -/
def parseCore (payload : Json) : Except Unit PreEvent :=
  match pyGetD payload "raw_payload" (Json.obj []) with
  | .error e => .error e
  | .ok raw =>
  match pyGetD raw "changes" (Json.arr []) with
  | .error e => .error e
  | .ok changes =>
  if !changes.truthy then .error () else
  match pyIndex0 changes with
  | .error e => .error e
  | .ok change =>
  match pyGetD change "field" Json.null with
  | .error e => .error e
  | .ok fieldVal =>
  if !jsonIsStr fieldVal "comments" then .error () else
  match pyGetD change "value" (Json.obj []) with
  | .error e => .error e
  | .ok value =>
  match pyGetD value "from" (Json.obj []) with
  | .error e => .error e
  | .ok fromData =>
  match pyGetD value "media" (Json.obj []) with
  | .error e => .error e
  | .ok mediaData =>
  match pyGetD payload "id" (Json.str "") with
  | .error e => .error e
  | .ok messageId =>
  match pyGetD payload "account_id" (Json.str "") with
  | .error e => .error e
  | .ok accountId =>
  match pyGetD value "id" (Json.str "") with
  | .error e => .error e
  | .ok commentId =>
  match pyGetD value "text" (Json.str "") with
  | .error e => .error e
  | .ok commentText =>
  match pyGetD fromData "id" (Json.str "") with
  | .error e => .error e
  | .ok commenterId =>
  match pyGetD fromData "username" (Json.str "") with
  | .error e => .error e
  | .ok commenterUsername =>
  match pyGetD mediaData "id" (Json.str "") with
  | .error e => .error e
  | .ok mediaId =>
  match pyGetD mediaData "media_product_type" (Json.str "") with
  | .error e => .error e
  | .ok mediaType =>
    .ok ⟨messageId, accountId, commentId, commentText,
         commenterId, commenterUsername, mediaId, mediaType⟩

/-- The timestamp expression of `from_webhook_payload`
(`comment_processor.py` lines 99–102):
`datetime.fromisoformat(payload.get("timestamp", now.isoformat()).replace("Z", "+00:00"))`.
A missing key falls back to the current time; a present non-string value
makes `.replace` raise; a present string that `fromisoformat` rejects
raises. -/
def parseTimestamp (env : ParseEnv) (payload : Json) : Except Unit String :=
  match pyGetD payload "timestamp" (Json.str env.nowIso) with
  | .error e => .error e
  | .ok (Json.str s) =>
      let t := pyReplaceZ s
      if env.isoParsable t then .ok t else .error ()
  | .ok _ => .error ()

/-- Body of `CommentEvent.from_webhook_payload` before the enclosing
`try/except`.  The timestamp is the last constructor argument evaluated in
the source, so it is sequenced after the field extraction. -/
def parseBody (env : ParseEnv) (payload : Json) : Except Unit CommentEvent :=
  match parseCore payload with
  | .error e => .error e
  | .ok pre =>
  match parseTimestamp env payload with
  | .error e => .error e
  | .ok ts =>
    .ok ⟨pre.messageId, pre.accountId, pre.commentId, pre.commentText,
         pre.commenterId, pre.commenterUsername, pre.mediaId, pre.mediaType, ts⟩

/-- Model of `CommentEvent.from_webhook_payload`: the parse body wrapped in the
`try/except Exception` that collapses every failure to `None`. -/
def fromWebhookPayload (env : ParseEnv) (payload : Json) : Option CommentEvent :=
  (parseBody env payload).toOption

/-- Total lookup with the `""` default used for the string fields of the
payload: the value stored under the key, or the empty string. -/
def jGetStrD (j : Json) (k : String) : Json :=
  match j with
  | .obj fs => (Json.lookup fs k).getD (Json.str "")
  | _ => Json.str ""

/-- The `TriggerType` enum of `app/models/automation.py`. -/
inductive TriggerType where
  | allComments
  | keyword
deriving DecidableEq, Repr

/-- The `MessageType` enum of `app/models/automation.py`. -/
inductive MessageType where
  | text
  | carousel
deriving DecidableEq, Repr

/-- The `CarouselButton` schema (`app/schemas/automation.py`). -/
structure CarouselButton where
  btnType : String
  url : String
  title : String
deriving DecidableEq, Repr

/-- The `CarouselElement` schema (`app/schemas/automation.py`). -/
structure CarouselElement where
  title : String
  subtitle : Option String
  imageUrl : Option String
  buttons : List CarouselButton
deriving DecidableEq, Repr

/-- The `Automation` ORM model (`app/models/automation.py`); UUIDs are opaque
and modelled as `Nat`.  The carousel elements stored in the JSON column are
kept in their schema shape, since the processor only tests their
emptiness and otherwise passes them through to the HTTP client. -/
structure Automation where
  id : Nat
  instagramAccountId : Nat
  name : String
  postId : String
  triggerType : TriggerType
  keywords : Option (List String)
  messageType : MessageType
  dmMessageTemplate : Option String
  carouselElements : Option (List CarouselElement)
  commentReplyEnabled : Bool
  commentReplyTemplate : Option String
  isActive : Bool
deriving DecidableEq, Repr

/-- The slice of `InstagramAccount` the processor touches. -/
structure InstagramAccount where
  instagramUserId : String
  accessToken : String
deriving DecidableEq, Repr

/-- Fields of the profile dict returned by
`instagram_client.get_commenter_profile`; each is `data.get(...)`, hence
optional. -/
structure ProfileData where
  name : Option String
  biography : Option String
  followersCount : Option Int
  mediaCount : Option Int
  profilePictureUrl : Option String
deriving DecidableEq, Repr

/-- The `CommenterProfile` dataclass (`comment_processor.py` lines 20–29): the
username comes from the webhook event (and is therefore whatever JSON value
the payload carried); all other fields start as `None`. -/
structure CommenterProfile where
  username : Json
  name : Option String := none
  biography : Option String := none
  followersCount : Option Int := none
  mediaCount : Option Int := none
  profilePictureUrl : Option String := none

/-- A `DMSentLog` row as written by `_log_dm_sent`. -/
structure DMRecord where
  automationId : Nat
  postId : Json
  commenterUserId : Json
  commenterUsername : Json
  commenterName : Option String
  commenterBiography : Option String
  commenterFollowersCount : Option Int
  commenterMediaCount : Option Int
  commenterProfilePictureUrl : Option String
  commentId : Json
  status : String

/-- A `CommentReplyLog` row as written by `_log_comment_reply`. -/
structure ReplyRecord where
  automationId : Nat
  postId : Json
  commentId : Json
  commenterUserId : Json
  commenterUsername : Json
  commenterName : Option String
  commenterBiography : Option String
  commenterFollowersCount : Option Int
  commenterMediaCount : Option Int
  commenterProfilePictureUrl : Option String
  status : String

/-- The mutable database state the processor reads and appends to: the DM
ledger (`dm_sent_log`) and the reply ledger (`comment_reply_log`). -/
structure ProcState where
  dmLog : List DMRecord
  replyLog : List ReplyRecord

/-- Observable side effects of one `process` invocation, in order. -/
inductive Act where
  | queryAutomations
  | dedupCheck
  | fetchProfile
  | dispatchDM
  | dispatchReply
  | recordReply (r : ReplyRecord)
  | recordDM (r : DMRecord)

/-- Whether an action is a DM dispatch (an invocation of the messaging
endpoint through `send_message`/`send_carousel`). -/
def Act.isDispatchDM : Act → Bool
  | .dispatchDM => true
  | _ => false

/-- Whether an action is a public-reply dispatch (`reply_to_comment`). -/
def Act.isDispatchReply : Act → Bool
  | .dispatchReply => true
  | _ => false

/-- Whether an action is a successful DM-ledger write. -/
def Act.isRecordDM : Act → Bool
  | .recordDM _ => true
  | _ => false

/-- Number of DM dispatches in a trace. -/
def countDispatchDM (tr : List Act) : Nat :=
  (tr.filter Act.isDispatchDM).length

/-- Number of public-reply dispatches in a trace. -/
def countDispatchReply (tr : List Act) : Nat :=
  (tr.filter Act.isDispatchReply).length

/-- The DM-ledger rows written during a trace, in order. -/
def dmRecordsOf (tr : List Act) : List DMRecord :=
  tr.filterMap fun act =>
    match act with
    | .recordDM r => some r
    | _ => none

/-- Outcome oracles for the external collaborators of one `process`
invocation: the automations table with each row's joined account, the
profile API result (`none` = the call or the token decryption raised, which
`_fetch_commenter_profile` catches), per-automation success of the DM send
and of the public reply (failures of either are caught and logged), and
whether the two ledger flushes raise (an uncaught infrastructure error). -/
structure ProcEnv where
  automations : List (Automation × Option InstagramAccount)
  profileData : Option ProfileData
  dmOk : Automation → Bool
  replyOk : Automation → Bool
  dmLogRaises : Bool
  replyLogRaises : Bool

/-- Python truthiness of an optional string column (`None` and `""` are
falsy). -/
def truthyOptStr : Option String → Bool
  | none => false
  | some s => !s.isEmpty

/-- Python truthiness of an optional list column (`None` and `[]` are
falsy). -/
def truthyOptList {α : Type} : Option (List α) → Bool
  | none => false
  | some l => !l.isEmpty

/-- Python `needle in hay` on strings: contiguous substring containment. -/
def pyInStr (needle hay : String) : Bool :=
  decide (needle.toList <:+: hay.toList)

/-- Model of `_should_trigger` (`comment_processor.py` lines 229–241).  `ALL_COMMENTS`
is unconditionally true; `KEYWORD` first rejects a falsy keyword list and
then lower-cases the comment text — `.lower()` on a non-string event field
raises, which nothing in `process` catches. -/
def shouldTrigger (a : Automation) (e : CommentEvent) : Except Unit Bool :=
  match a.triggerType with
  | .allComments => .ok true
  | .keyword =>
    if !truthyOptList a.keywords then .ok false
    else
      match e.commentText with
      | .str text =>
          let commentLower := pyLower text
          .ok ((a.keywords.getD []).any fun k => pyInStr (pyLower k) commentLower)
      | _ => .error ()

/-- The `WHERE` clause of `_already_sent`: same automation, post and
commenter, with status `"sent"`. -/
def dmRecordMatches (aid : Nat) (pid cid : Json) (r : DMRecord) : Bool :=
  r.automationId == aid && Json.beq r.postId pid &&
    Json.beq r.commenterUserId cid && r.status == "sent"

/-- Model of `_already_sent` (`comment_processor.py` lines 243–255).
`scalar_one_or_none` yields `False` on zero rows, `True` on one row, and
raises `MultipleResultsFound` on two or more. -/
def alreadySentE (log : List DMRecord) (aid : Nat) (pid cid : Json) : Except Unit Bool :=
  match log.filter (dmRecordMatches aid pid cid) with
  | [] => .ok false
  | [_] => .ok true
  | _ => .error ()

/-- Model of `_fetch_commenter_profile` (`comment_processor.py` lines 322–342): the
profile starts from the event's username; a successful API call fills in
the optional fields; any raise (decryption or HTTP) is caught and the
username-only profile is returned.  Never raises past this boundary. -/
def fetchCommenterProfile (env : ProcEnv) (e : CommentEvent)
    (_acct : InstagramAccount) : CommenterProfile :=
  match env.profileData with
  | none => { username := e.commenterUsername }
  | some d =>
    { username := e.commenterUsername
    , name := d.name
    , biography := d.biography
    , followersCount := d.followersCount
    , mediaCount := d.mediaCount
    , profilePictureUrl := d.profilePictureUrl }

/-- The `DMSentLog` row built by `_log_dm_sent` for this (event, automation)
pair. -/
def mkDMRecord (a : Automation) (e : CommentEvent) (p : CommenterProfile)
    (success : Bool) : DMRecord :=
  { automationId := a.id
  , postId := e.mediaId
  , commenterUserId := e.commenterId
  , commenterUsername := p.username
  , commenterName := p.name
  , commenterBiography := p.biography
  , commenterFollowersCount := p.followersCount
  , commenterMediaCount := p.mediaCount
  , commenterProfilePictureUrl := p.profilePictureUrl
  , commentId := e.commentId
  , status := if success then "sent" else "failed" }

/-- The `CommentReplyLog` row built by `_log_comment_reply`. -/
def mkReplyRecord (a : Automation) (e : CommentEvent) (p : CommenterProfile)
    (success : Bool) : ReplyRecord :=
  { automationId := a.id
  , postId := e.mediaId
  , commentId := e.commentId
  , commenterUserId := e.commenterId
  , commenterUsername := p.username
  , commenterName := p.name
  , commenterBiography := p.biography
  , commenterFollowersCount := p.followersCount
  , commenterMediaCount := p.mediaCount
  , commenterProfilePictureUrl := p.profilePictureUrl
  , status := if success then "sent" else "failed" }

/-- The reply block of `_process_automation` (`comment_processor.py` lines
206–217): only entered when the DM succeeded, reply is enabled and a truthy
reply template exists; dispatches the public reply (its failure is caught
inside `_reply_to_comment`) and then writes the reply-ledger row, whose
flush may raise. -/
def replyStep (env : ProcEnv) (e : CommentEvent) (a : Automation)
    (profile : CommenterProfile) (dmSuccess : Bool) (replyLog : List ReplyRecord) :
    Except Unit (List ReplyRecord) × List Act :=
  if dmSuccess && a.commentReplyEnabled && truthyOptStr a.commentReplyTemplate then
    let rrec := mkReplyRecord a e profile (env.replyOk a)
    if env.replyLogRaises then (.error (), [.dispatchReply])
    else (.ok (replyLog ++ [rrec]), [.dispatchReply, .recordReply rrec])
  else (.ok replyLog, [])

/-- Model of `_process_automation` (`comment_processor.py` lines 159–227): trigger
check, dedup check, content validation, best-effort profile fetch, DM
dispatch (failures caught inside `_send_dm`), the reply block, and finally
the DM-ledger write.  An `Except.error` is an uncaught exception: the
worker will roll the session back, so no appended row survives it. -/
def processAutomation (env : ProcEnv) (e : CommentEvent) (a : Automation)
    (acct : InstagramAccount) (st : ProcState) : Except Unit ProcState × List Act :=
  match shouldTrigger a e with
  | .error _ => (.error (), [])
  | .ok false => (.ok st, [])
  | .ok true =>
  match alreadySentE st.dmLog a.id e.mediaId e.commenterId with
  | .error _ => (.error (), [.dedupCheck])
  | .ok true => (.ok st, [.dedupCheck])
  | .ok false =>
  if a.messageType == .text && !truthyOptStr a.dmMessageTemplate then
    (.ok st, [.dedupCheck])
  else if a.messageType == .carousel && !truthyOptList a.carouselElements then
    (.ok st, [.dedupCheck])
  else
    let profile := fetchCommenterProfile env e acct
    let dmSuccess := env.dmOk a
    match replyStep env e a profile dmSuccess st.replyLog with
    | (.error _, tr) => (.error (), [.dedupCheck, .fetchProfile, .dispatchDM] ++ tr)
    | (.ok replyLog', tr) =>
      let drec := mkDMRecord a e profile dmSuccess
      if env.dmLogRaises then
        (.error (), [.dedupCheck, .fetchProfile, .dispatchDM] ++ tr)
      else
        (.ok ⟨st.dmLog ++ [drec], replyLog'⟩,
         [.dedupCheck, .fetchProfile, .dispatchDM] ++ tr ++ [.recordDM drec])

/-- Model of `_get_active_automations` (`comment_processor.py` lines 147–157): all
active automations whose `post_id` equals the event's media id, each with
its joined account. -/
def getActiveAutomations (table : List (Automation × Option InstagramAccount))
    (postId : Json) : List (Automation × Option InstagramAccount) :=
  table.filter fun row => row.1.isActive && jsonIsStr postId row.1.postId

/-- The `for automation in automations` loop of `process`
(`comment_processor.py` lines 138–143): rows without a joined account are
skipped with a warning; an uncaught exception from `_process_automation`
aborts the loop and propagates. -/
def processLoop (env : ProcEnv) (e : CommentEvent) :
    List (Automation × Option InstagramAccount) → ProcState →
    Except Unit ProcState × List Act
  | [], st => (.ok st, [])
  | (_, none) :: rest, st => processLoop env e rest st
  | (a, some acct) :: rest, st =>
    match processAutomation env e a acct st with
    | (.error er, tr) => (.error er, tr)
    | (.ok st', tr) =>
      match processLoop env e rest st' with
      | (res, tr') => (res, tr ++ tr')

/-- Model of `CommentProcessor.process` (`comment_processor.py` lines 115–145):
parse (a failed parse is acknowledged without querying the automations
table), query candidate automations, run the per-automation state machine
for each, and return `True`.  The source's early `return True` for an
empty candidate list is behaviourally the loop on an empty list. -/
def process (penv : ParseEnv) (env : ProcEnv) (payload : Json) (st : ProcState) :
    Except Unit (ProcState × Bool) × List Act :=
  match fromWebhookPayload penv payload with
  | none => (.ok (st, true), [])
  | some e =>
    match processLoop env e (getActiveAutomations env.automations e.mediaId) st with
    | (.error er, tr) => (.error er, .queryAutomations :: tr)
    | (.ok st', tr) => (.ok (st', true), .queryAutomations :: tr)

/-- Result of decoding the broker message body in `_process_message`:
`message.body.decode("utf-8")` (raises `UnicodeDecodeError` on a body that
is not valid UTF-8) followed by `json.loads(body)` (raises
`json.JSONDecodeError` on UTF-8 text that is not JSON). -/
inductive BodyDecode where
  | notUtf8
  | utf8NotJson
  | decoded (payload : Json)

/-- Behaviour of the processor callback handed to the consumer: it returns
a boolean or raises. -/
inductive CallbackRes where
  | ret (b : Bool)
  | raiseExc

/-- The broker acknowledgement decision taken by `_process_message`. -/
inductive AckDecision where
  | ack
  | nackRequeue
deriving DecidableEq, Repr

/-- Model of `RabbitMQConsumer._process_message` (`rabbitmq_consumer.py` lines
76–103).  `json.JSONDecodeError` is acknowledged and dropped; every other
exception — including `UnicodeDecodeError` from the UTF-8 decode, which is
*not* a `JSONDecodeError` — falls to the generic handler and is
negatively acknowledged with requeue; a decoded payload is acknowledged
exactly when the callback returns `True`. -/
def processMessage : BodyDecode → CallbackRes → AckDecision
  | .notUtf8, _ => .nackRequeue
  | .utf8NotJson, _ => .ack
  | .decoded _, .ret true => .ack
  | .decoded _, .ret false => .nackRequeue
  | .decoded _, .raiseExc => .nackRequeue

/-- Model of `Worker.process_comment` (`worker.py` lines 36–50): runs the processor
in a session; an uncaught exception is caught here, the session is rolled
back and `False` is returned, so the callback handed to the consumer never
raises. -/
def workerProcessComment (penv : ParseEnv) (env : ProcEnv) (payload : Json)
    (st : ProcState) : Bool :=
  match (process penv env payload st).1 with
  | .ok (_, b) => b
  | .error _ => false

/-- Pydantic field constraints of `CarouselButton`
(`app/schemas/automation.py` lines 11–16): `title` must be 1–80 characters. -/
def validButton (b : CarouselButton) : Bool :=
  1 ≤ b.title.length && b.title.length ≤ 80

/-- Pydantic field constraints of `CarouselElement`
(`app/schemas/automation.py` lines 19–25): `title` 1–80 characters,
`subtitle` at most 80 when present, 1–3 valid buttons. -/
def validElement (el : CarouselElement) : Bool :=
  1 ≤ el.title.length && el.title.length ≤ 80 &&
  (match el.subtitle with
   | none => true
   | some s => s.length ≤ 80) &&
  1 ≤ el.buttons.length && el.buttons.length ≤ 3 &&
  el.buttons.all validButton

/-- The `AutomationCreate` schema payload (`app/schemas/automation.py` lines
28–40). -/
structure AutomationCreate where
  instagramAccountId : Nat
  name : String
  postId : String
  triggerType : TriggerType
  keywords : Option (List String)
  messageType : MessageType
  dmMessageTemplate : Option String
  carouselElements : Option (List CarouselElement)
  commentReplyEnabled : Bool
  commentReplyTemplate : Option String
deriving DecidableEq, Repr

/-- Field-level pydantic validation of `AutomationCreate`: `name` 1–255
characters, `post_id` 1–100 characters, every carousel element valid. -/
def createFieldsValid (d : AutomationCreate) : Bool :=
  1 ≤ d.name.length && d.name.length ≤ 255 &&
  1 ≤ d.postId.length && d.postId.length ≤ 100 &&
  (match d.carouselElements with
   | none => true
   | some els => els.all validElement)

/-- The `validate_message_content` model validator of `AutomationCreate`
(`app/schemas/automation.py` lines 42–52): a text automation needs a
template that is non-empty after stripping; a carousel automation needs a
non-empty element list of at most 10 elements. -/
def validateMessageContent (d : AutomationCreate) : Bool :=
  match d.messageType with
  | .text =>
    match d.dmMessageTemplate with
    | none => false
    | some t => !t.isEmpty && !(pyStrip t).isEmpty
  | .carousel =>
    match d.carouselElements with
    | none => false
    | some els => !els.isEmpty && els.length ≤ 10

/-- Whether a create payload is admitted by the configuration surface:
field validation plus the model validator. -/
def createAccepted (d : AutomationCreate) : Bool :=
  createFieldsValid d && validateMessageContent d

/-- The `AutomationUpdate` schema (`app/schemas/automation.py` lines 55–65):
every field optional and `none` meaning "not present in the request"
(pydantic `exclude_unset`); nullable model fields take an inner `Option`.
The schema declares **no** model validator. -/
structure AutomationUpdate where
  name : Option String := none
  triggerType : Option TriggerType := none
  keywords : Option (Option (List String)) := none
  messageType : Option MessageType := none
  dmMessageTemplate : Option (Option String) := none
  carouselElements : Option (Option (List CarouselElement)) := none
  commentReplyEnabled : Option Bool := none
  commentReplyTemplate : Option (Option String) := none
deriving DecidableEq, Repr

/-- Field-level pydantic validation of `AutomationUpdate`: only per-field
constraints (`name` length, element validity); no cross-field invariant. -/
def updateFieldsValid (u : AutomationUpdate) : Bool :=
  (match u.name with
   | none => true
   | some n => 1 ≤ n.length && n.length ≤ 255) &&
  (match u.carouselElements with
   | some (some els) => els.all validElement
   | _ => true)

/-- Model of `AutomationRepository.update` (`automation_repository.py` lines
108–124): `model_dump(exclude_unset=True)` followed by `setattr` for each
present field; the result is flushed without re-validation. -/
def applyUpdate (a : Automation) (u : AutomationUpdate) : Automation :=
  { a with
    name := u.name.getD a.name
    triggerType := u.triggerType.getD a.triggerType
    keywords := u.keywords.getD a.keywords
    messageType := u.messageType.getD a.messageType
    dmMessageTemplate := u.dmMessageTemplate.getD a.dmMessageTemplate
    carouselElements := u.carouselElements.getD a.carouselElements
    commentReplyEnabled := u.commentReplyEnabled.getD a.commentReplyEnabled
    commentReplyTemplate := u.commentReplyTemplate.getD a.commentReplyTemplate }

/-- The §3 message-content invariant on the message fields: a text
automation has a non-empty template; a carousel automation has between 1
and 10 elements. -/
def messageContentInvariant (mt : MessageType) (tmpl : Option String)
    (els : Option (List CarouselElement)) : Bool :=
  match mt with
  | .text => truthyOptStr tmpl
  | .carousel =>
    match els with
    | none => false
    | some l => 1 ≤ l.length && l.length ≤ 10

/-- A falsy optional list is `None` or `[]`, so its `getD []` is `[]`. -/
theorem truthyOptList_false_getD {α : Type} {o : Option (List α)}
    (h : truthyOptList o = false) : o.getD [] = [] := by
  cases o with
  | none => rfl
  | some l =>
    cases l with
    | nil => rfl
    | cons x xs => simp [truthyOptList] at h

/-- Claim **C5** (trigger evaluation): for every automation and event, the trigger
check returns true when the trigger type is `ALL_COMMENTS`; for `KEYWORD`
triggers on string comment text it returns true iff the lower-cased text
contains some lower-cased keyword as a contiguous substring; and a falsy
(empty or absent) keyword set never triggers. -/
theorem C5_trigger_evaluation :
    (∀ (a : Automation) (e : CommentEvent),
      a.triggerType = TriggerType.allComments → shouldTrigger a e = .ok true) ∧
    (∀ (a : Automation) (e : CommentEvent) (t : String),
      a.triggerType = TriggerType.keyword → e.commentText = Json.str t →
      (shouldTrigger a e = .ok true ↔
        ∃ k ∈ a.keywords.getD [], (pyLower k).toList <:+: (pyLower t).toList)) ∧
    (∀ (a : Automation) (e : CommentEvent),
      a.triggerType = TriggerType.keyword → truthyOptList a.keywords = false →
      shouldTrigger a e = .ok false) := by
  refine ⟨?_, ?_, ?_⟩
  · intro a e h
    simp [shouldTrigger, h]
  · intro a e t h ht
    by_cases hk : truthyOptList a.keywords
    · simp [shouldTrigger, h, ht, hk, pyInStr, List.any_eq_true]
    · rw [Bool.not_eq_true] at hk
      simp [shouldTrigger, h, ht, hk, truthyOptList_false_getD hk]
  · intro a e h hk
    simp [shouldTrigger, h, hk]

/-- Concrete Instagram account used by witnesses. -/
def acctW : InstagramAccount := ⟨"ig-user-1", "enc-token"⟩

/-- Concrete comment event used by witnesses: the spec §8 sample comment. -/
def eventW : CommentEvent :=
  { messageId := .str "m1"
  , accountId := .str "acc1"
  , commentId := .str "c1"
  , commentText := .str "Loved this, is it on SALE?"
  , commenterId := .str "u1"
  , commenterUsername := .str "alice"
  , mediaId := .str "p1"
  , mediaType := .str "REELS"
  , timestamp := "2026-01-01T00:00:00+00:00" }

/-- Concrete keyword automation used by witnesses (spec §8 sample). -/
def autoKwW : Automation :=
  { id := 1
  , instagramAccountId := 1
  , name := "kw"
  , postId := "p1"
  , triggerType := .keyword
  , keywords := some ["sale", "promo"]
  , messageType := .text
  , dmMessageTemplate := some "hi there"
  , carouselElements := none
  , commentReplyEnabled := true
  , commentReplyTemplate := some "thanks!"
  , isActive := true }

/-- Concrete all-comments automation used by witnesses. -/
def autoAllW : Automation :=
  { autoKwW with id := 2, triggerType := .allComments, keywords := none }

/-- Witness for C5 at concrete inputs: the all-comments trigger fires on
the sample event; the keyword trigger fires on `"Loved this, is it on
SALE?"` via the keyword `"sale"`; and a keyword automation whose keyword
list is empty never fires. -/
theorem C5_trigger_evaluation_witness :
    shouldTrigger autoAllW eventW = .ok true ∧
    shouldTrigger autoKwW eventW = .ok true ∧
    shouldTrigger { autoKwW with keywords := some [] } eventW = .ok false := by
  refine ⟨C5_trigger_evaluation.1 autoAllW eventW rfl, ?_, ?_⟩
  · exact (C5_trigger_evaluation.2.1 autoKwW eventW "Loved this, is it on SALE?"
      rfl rfl).mpr ⟨"sale", by decide, by decide⟩
  · exact C5_trigger_evaluation.2.2 { autoKwW with keywords := some [] } eventW rfl rfl

/-- Counting DM dispatches distributes over trace concatenation. -/
theorem countDispatchDM_append (l1 l2 : List Act) :
    countDispatchDM (l1 ++ l2) = countDispatchDM l1 + countDispatchDM l2 := by
  simp [countDispatchDM, List.filter_append]

/-- Counting reply dispatches distributes over trace concatenation. -/
theorem countDispatchReply_append (l1 l2 : List Act) :
    countDispatchReply (l1 ++ l2) = countDispatchReply l1 + countDispatchReply l2 := by
  simp [countDispatchReply, List.filter_append]

/-- The reply block when the gate fails: no action, ledger unchanged. -/
theorem replyStep_off (env : ProcEnv) (e : CommentEvent) (a : Automation)
    (profile : CommenterProfile) (dmSuccess : Bool) (rl : List ReplyRecord)
    (h : (dmSuccess && a.commentReplyEnabled && truthyOptStr a.commentReplyTemplate) = false) :
    replyStep env e a profile dmSuccess rl = (.ok rl, []) := by
  simp [replyStep, h]

/-- The reply block when the gate holds and the reply-ledger flush does not
raise: one reply dispatch and one reply record. -/
theorem replyStep_on (env : ProcEnv) (e : CommentEvent) (a : Automation)
    (profile : CommenterProfile) (dmSuccess : Bool) (rl : List ReplyRecord)
    (h : (dmSuccess && a.commentReplyEnabled && truthyOptStr a.commentReplyTemplate) = true)
    (hr : env.replyLogRaises = false) :
    replyStep env e a profile dmSuccess rl =
      (.ok (rl ++ [mkReplyRecord a e profile (env.replyOk a)]),
       [.dispatchReply, .recordReply (mkReplyRecord a e profile (env.replyOk a))]) := by
  simp [replyStep, h, hr]

/-- The reply block when the gate holds but the reply-ledger flush raises:
the reply was dispatched, then the uncaught exception propagates. -/
theorem replyStep_on_raises (env : ProcEnv) (e : CommentEvent) (a : Automation)
    (profile : CommenterProfile) (dmSuccess : Bool) (rl : List ReplyRecord)
    (h : (dmSuccess && a.commentReplyEnabled && truthyOptStr a.commentReplyTemplate) = true)
    (hr : env.replyLogRaises = true) :
    replyStep env e a profile dmSuccess rl = (.error (), [.dispatchReply]) := by
  simp [replyStep, h, hr]

/-- The reply block never dispatches a DM. -/
theorem replyStep_countDM (env : ProcEnv) (e : CommentEvent) (a : Automation)
    (profile : CommenterProfile) (dmSuccess : Bool) (rl : List ReplyRecord) :
    countDispatchDM (replyStep env e a profile dmSuccess rl).2 = 0 := by
  by_cases h : (dmSuccess && a.commentReplyEnabled && truthyOptStr a.commentReplyTemplate)
  · by_cases hr : env.replyLogRaises
    · simp [replyStep_on_raises env e a profile dmSuccess rl h hr, countDispatchDM,
        Act.isDispatchDM]
    · simp [replyStep_on env e a profile dmSuccess rl h (by simpa using hr),
        countDispatchDM, Act.isDispatchDM]
  · simp [replyStep_off env e a profile dmSuccess rl (by simpa using h), countDispatchDM]

/-- The reply block writes no DM-ledger row. -/
theorem replyStep_dmRecords (env : ProcEnv) (e : CommentEvent) (a : Automation)
    (profile : CommenterProfile) (dmSuccess : Bool) (rl : List ReplyRecord) :
    dmRecordsOf (replyStep env e a profile dmSuccess rl).2 = [] := by
  by_cases h : (dmSuccess && a.commentReplyEnabled && truthyOptStr a.commentReplyTemplate)
  · by_cases hr : env.replyLogRaises
    · simp [replyStep_on_raises env e a profile dmSuccess rl h hr, dmRecordsOf]
    · simp [replyStep_on env e a profile dmSuccess rl h (by simpa using hr), dmRecordsOf]
  · simp [replyStep_off env e a profile dmSuccess rl (by simpa using h), dmRecordsOf]

/-- The reply block dispatches the public reply exactly when its gate
holds. -/
theorem replyStep_countReply (env : ProcEnv) (e : CommentEvent) (a : Automation)
    (profile : CommenterProfile) (dmSuccess : Bool) (rl : List ReplyRecord) :
    countDispatchReply (replyStep env e a profile dmSuccess rl).2 =
      (if (dmSuccess && a.commentReplyEnabled && truthyOptStr a.commentReplyTemplate) = true
       then 1 else 0) := by
  by_cases h : (dmSuccess && a.commentReplyEnabled && truthyOptStr a.commentReplyTemplate)
  · by_cases hr : env.replyLogRaises
    · simp [replyStep_on_raises env e a profile dmSuccess rl h hr, countDispatchReply,
        Act.isDispatchReply, h]
    · simp [replyStep_on env e a profile dmSuccess rl h (by simpa using hr),
        countDispatchReply, Act.isDispatchReply, h]
  · simp [replyStep_off env e a profile dmSuccess rl (by simpa using h),
      countDispatchReply, h]

/-- Counting DM dispatches, one action at a time. -/
theorem countDispatchDM_cons (x : Act) (l : List Act) :
    countDispatchDM (x :: l) = (if x.isDispatchDM then 1 else 0) + countDispatchDM l := by
  by_cases hx : x.isDispatchDM <;>
    simp [countDispatchDM, List.filter_cons, hx, Nat.add_comm]

/-- Counting reply dispatches, one action at a time. -/
theorem countDispatchReply_cons (x : Act) (l : List Act) :
    countDispatchReply (x :: l) = (if x.isDispatchReply then 1 else 0) + countDispatchReply l := by
  by_cases hx : x.isDispatchReply <;>
    simp [countDispatchReply, List.filter_cons, hx, Nat.add_comm]

/-- The empty trace contains no DM dispatch. -/
theorem countDispatchDM_nil : countDispatchDM [] = 0 := rfl

/-- The empty trace contains no reply dispatch. -/
theorem countDispatchReply_nil : countDispatchReply [] = 0 := rfl

/-- The trace core up to the DM dispatch contains exactly one DM dispatch. -/
theorem countDispatchDM_core3 :
    countDispatchDM [Act.dedupCheck, Act.fetchProfile, Act.dispatchDM] = 1 := rfl

/-- A lone DM-ledger write is not a dispatch. -/
theorem countDispatchDM_rec1 (r : DMRecord) : countDispatchDM [Act.recordDM r] = 0 := rfl

/-- Lemma: `_process_automation` past all four guards: what remains is profile
fetch, DM dispatch, the reply block, and the DM-ledger write. -/
theorem processAutomation_main (env : ProcEnv) (e : CommentEvent) (a : Automation)
    (acct : InstagramAccount) (st : ProcState)
    (htrig : shouldTrigger a e = .ok true)
    (hdedup : st.dmLog.filter (dmRecordMatches a.id e.mediaId e.commenterId) = [])
    (hg1 : (a.messageType == MessageType.text && !truthyOptStr a.dmMessageTemplate) = false)
    (hg2 : (a.messageType == MessageType.carousel && !truthyOptList a.carouselElements) = false) :
    processAutomation env e a acct st =
      (match replyStep env e a (fetchCommenterProfile env e acct) (env.dmOk a) st.replyLog with
       | (.error _, tr) => (.error (), [.dedupCheck, .fetchProfile, .dispatchDM] ++ tr)
       | (.ok replyLog', tr) =>
         if env.dmLogRaises then
           (.error (), [.dedupCheck, .fetchProfile, .dispatchDM] ++ tr)
         else
           (.ok ⟨st.dmLog ++ [mkDMRecord a e (fetchCommenterProfile env e acct) (env.dmOk a)],
                 replyLog'⟩,
            [.dedupCheck, .fetchProfile, .dispatchDM] ++ tr ++
              [.recordDM (mkDMRecord a e (fetchCommenterProfile env e acct) (env.dmOk a))])) := by
  simp only [processAutomation, alreadySentE, htrig, hdedup, hg1, hg2]
  simp

/-- A hit in the dedup guard stops the pair's processing: only the dedup
check is observable, nothing is dispatched, nothing is written, and the
state is returned unchanged (or, when the guard's query finds several rows,
`scalar_one_or_none` raises and the session is rolled back). -/
theorem processAutomation_dedup_skip (env : ProcEnv) (e : CommentEvent) (a : Automation)
    (acct : InstagramAccount) (st : ProcState)
    (htrig : shouldTrigger a e = .ok true)
    (hsent : st.dmLog.filter (dmRecordMatches a.id e.mediaId e.commenterId) ≠ []) :
    (processAutomation env e a acct st).2 = [.dedupCheck] ∧
    ((processAutomation env e a acct st).1 = .ok st ∨
     (processAutomation env e a acct st).1 = .error ()) := by
  cases hf : st.dmLog.filter (dmRecordMatches a.id e.mediaId e.commenterId) with
  | nil => exact absurd hf hsent
  | cons r rest =>
    cases rest with
    | nil => simp [processAutomation, alreadySentE, htrig, hf]
    | cons r' rest' => simp [processAutomation, alreadySentE, htrig, hf]

/-- One `_process_automation` run dispatches at most one DM. -/
theorem processAutomation_countDM_le_one (env : ProcEnv) (e : CommentEvent)
    (a : Automation) (acct : InstagramAccount) (st : ProcState) :
    countDispatchDM (processAutomation env e a acct st).2 ≤ 1 := by
  unfold processAutomation
  cases htrig : shouldTrigger a e with
  | error u => simp [countDispatchDM]
  | ok b =>
    cases b with
    | false => simp [countDispatchDM]
    | true =>
      cases hs : alreadySentE st.dmLog a.id e.mediaId e.commenterId with
      | error u => simp [countDispatchDM, Act.isDispatchDM]
      | ok sb =>
        cases sb with
        | true => simp [countDispatchDM, Act.isDispatchDM]
        | false =>
          by_cases hg1 : (a.messageType == MessageType.text && !truthyOptStr a.dmMessageTemplate)
          · simp [hg1, countDispatchDM, Act.isDispatchDM]
          · by_cases hg2 : (a.messageType == MessageType.carousel && !truthyOptList a.carouselElements)
            · simp [hg1, hg2, countDispatchDM, Act.isDispatchDM]
            · have hcnt := replyStep_countDM env e a (fetchCommenterProfile env e acct)
                (env.dmOk a) st.replyLog
              cases hr : replyStep env e a (fetchCommenterProfile env e acct)
                  (env.dmOk a) st.replyLog with
              | mk res tr =>
                rw [hr] at hcnt
                simp only at hcnt
                cases res with
                | error u =>
                  simp [hg1, hg2, hr, countDispatchDM_cons, countDispatchDM_append,
                    Act.isDispatchDM, hcnt]
                | ok rl' =>
                  by_cases hdr : env.dmLogRaises <;>
                    simp [hg1, hg2, hr, hdr, countDispatchDM_cons, countDispatchDM_append,
                      Act.isDispatchDM, hcnt, countDispatchDM_rec1, countDispatchDM_nil]

/-- If any DM dispatch happens while processing a pair, the trace opens
with the dedup check: the guard is always evaluated before the dispatch. -/
theorem processAutomation_dedup_first (env : ProcEnv) (e : CommentEvent)
    (a : Automation) (acct : InstagramAccount) (st : ProcState)
    (h : 0 < countDispatchDM (processAutomation env e a acct st).2) :
    (processAutomation env e a acct st).2.head? = some Act.dedupCheck := by
  cases htrig : shouldTrigger a e with
  | error u =>
    have hempty : (processAutomation env e a acct st).2 = [] := by
      simp [processAutomation, htrig]
    rw [hempty] at h
    simp [countDispatchDM_nil] at h
  | ok b =>
    cases b with
    | false =>
      have hempty : (processAutomation env e a acct st).2 = [] := by
        simp [processAutomation, htrig]
      rw [hempty] at h
      simp [countDispatchDM_nil] at h
    | true =>
      cases hs : alreadySentE st.dmLog a.id e.mediaId e.commenterId with
      | error u => simp [processAutomation, htrig, hs]
      | ok sb =>
        cases sb with
        | true => simp [processAutomation, htrig, hs]
        | false =>
          by_cases hg1 : (a.messageType == MessageType.text && !truthyOptStr a.dmMessageTemplate)
          · simp [processAutomation, htrig, hs, hg1]
          · by_cases hg2 : (a.messageType == MessageType.carousel && !truthyOptList a.carouselElements)
            · simp [processAutomation, htrig, hs, hg1, hg2]
            · cases hr : replyStep env e a (fetchCommenterProfile env e acct)
                  (env.dmOk a) st.replyLog with
              | mk res tr =>
                cases res with
                | error u => simp [processAutomation, htrig, hs, hg1, hg2, hr]
                | ok rl' =>
                  by_cases hdr : env.dmLogRaises <;>
                    simp [processAutomation, htrig, hs, hg1, hg2, hr, hdr]

/-- Lemma: `process` on an unparseable payload: acknowledged with no side
effects. -/
theorem process_none (penv : ParseEnv) (env : ProcEnv) (payload : Json)
    (st : ProcState) (hp : fromWebhookPayload penv payload = none) :
    process penv env payload st = (.ok (st, true), []) := by
  simp [process, hp]

/-- Lemma: `process` on a parsed event reduces to the loop over the active
automations of the event's post. -/
theorem process_some (penv : ParseEnv) (env : ProcEnv) (payload : Json)
    (st : ProcState) (e : CommentEvent)
    (hp : fromWebhookPayload penv payload = some e) :
    process penv env payload st =
      (match processLoop env e (getActiveAutomations env.automations e.mediaId) st with
       | (.error er, tr) => (.error er, .queryAutomations :: tr)
       | (.ok st', tr) => (.ok (st', true), .queryAutomations :: tr)) := by
  simp [process, hp]

/-- Lemma: `_get_active_automations` over a one-row table. -/
theorem getActiveAutomations_single (a : Automation) (oa : Option InstagramAccount)
    (pid : Json) :
    getActiveAutomations [(a, oa)] pid =
      (if (a.isActive && jsonIsStr pid a.postId) = true then [(a, oa)] else []) := by
  by_cases h : (a.isActive && jsonIsStr pid a.postId) = true <;>
    simp [getActiveAutomations, List.filter_cons, h]

/-- The automation loop over a single row with a linked account. -/
theorem processLoop_single (env : ProcEnv) (e : CommentEvent) (a : Automation)
    (acct : InstagramAccount) (st : ProcState) :
    processLoop env e [(a, some acct)] st =
      (match processAutomation env e a acct st with
       | (.error er, tr) => (.error er, tr)
       | (.ok st', tr) => (.ok st', tr)) := by
  cases h : processAutomation env e a acct st with
  | mk r tr =>
    cases r with
    | error u => simp [processLoop, h]
    | ok st' => simp [processLoop, h]

/-- Claim **C1** (dedup invariant): (i) once the DM ledger holds a `sent` row for
(automation, post, commenter), a further triggering event on that tuple
performs no DM dispatch and writes no row — only the dedup check is
observable and the ledger state passes through unchanged (or the guard
query itself raises on duplicate rows and everything rolls back); (ii) the
dedup check is always evaluated before any DM dispatch; (iii) across two
sequential `process` invocations over the same single-automation table
where the first leaves a `sent` row for the tuple and the second event
triggers the automation, the DM dispatcher runs at most once in total. -/
theorem C1_dedup_invariant :
    (∀ (env : ProcEnv) (e : CommentEvent) (a : Automation) (acct : InstagramAccount)
       (st : ProcState),
      shouldTrigger a e = .ok true →
      st.dmLog.filter (dmRecordMatches a.id e.mediaId e.commenterId) ≠ [] →
      (processAutomation env e a acct st).2 = [.dedupCheck] ∧
      ((processAutomation env e a acct st).1 = .ok st ∨
       (processAutomation env e a acct st).1 = .error ())) ∧
    (∀ (env : ProcEnv) (e : CommentEvent) (a : Automation) (acct : InstagramAccount)
       (st : ProcState),
      0 < countDispatchDM (processAutomation env e a acct st).2 →
      (processAutomation env e a acct st).2.head? = some Act.dedupCheck) ∧
    (∀ (penv1 penv2 : ParseEnv) (env1 env2 : ProcEnv) (p1 p2 : Json)
       (st0 st1 : ProcState) (tr1 : List Act) (A : Automation)
       (acct1 acct2 : InstagramAccount) (e2 : CommentEvent),
      env1.automations = [(A, some acct1)] →
      env2.automations = [(A, some acct2)] →
      process penv1 env1 p1 st0 = (.ok (st1, true), tr1) →
      fromWebhookPayload penv2 p2 = some e2 →
      shouldTrigger A e2 = .ok true →
      st1.dmLog.filter (dmRecordMatches A.id e2.mediaId e2.commenterId) ≠ [] →
      countDispatchDM tr1 + countDispatchDM (process penv2 env2 p2 st1).2 ≤ 1) := by
  refine ⟨processAutomation_dedup_skip, processAutomation_dedup_first, ?_⟩
  intro penv1 penv2 env1 env2 p1 p2 st0 st1 tr1 A acct1 acct2 e2
    haut1 haut2 h1 hp2 htrig2 hsent
  have hb1 : countDispatchDM tr1 ≤ 1 := by
    cases hp1 : fromWebhookPayload penv1 p1 with
    | none =>
      rw [process_none penv1 env1 p1 st0 hp1] at h1
      have htr := congrArg Prod.snd h1
      simp only at htr
      rw [← htr]
      simp [countDispatchDM_nil]
    | some e1 =>
      rw [process_some penv1 env1 p1 st0 e1 hp1, haut1,
        getActiveAutomations_single] at h1
      by_cases hact : (A.isActive && jsonIsStr e1.mediaId A.postId) = true
      · rw [if_pos hact, processLoop_single] at h1
        cases hpa : processAutomation env1 e1 A acct1 st0 with
        | mk r trA =>
          rw [hpa] at h1
          cases r with
          | error u => simp at h1
          | ok st' =>
            simp only at h1
            have htr := congrArg Prod.snd h1
            simp only at htr
            rw [← htr]
            have hle := processAutomation_countDM_le_one env1 e1 A acct1 st0
            rw [hpa] at hle
            simp only at hle
            simpa [countDispatchDM_cons, Act.isDispatchDM] using hle
      · rw [if_neg hact] at h1
        simp only [processLoop] at h1
        have htr := congrArg Prod.snd h1
        simp only at htr
        rw [← htr]
        simp [countDispatchDM_cons, Act.isDispatchDM, countDispatchDM_nil]
  have hb2 : countDispatchDM (process penv2 env2 p2 st1).2 = 0 := by
    rw [process_some penv2 env2 p2 st1 e2 hp2, haut2, getActiveAutomations_single]
    by_cases hact : (A.isActive && jsonIsStr e2.mediaId A.postId) = true
    · rw [if_pos hact, processLoop_single]
      have hskip := processAutomation_dedup_skip env2 e2 A acct2 st1 htrig2 hsent
      cases hpa : processAutomation env2 e2 A acct2 st1 with
      | mk r trA =>
        rw [hpa] at hskip
        obtain ⟨htr, _⟩ := hskip
        simp only at htr
        subst htr
        cases r with
        | error u =>
          simp [countDispatchDM_cons, Act.isDispatchDM, countDispatchDM_nil]
        | ok st' =>
          simp [countDispatchDM_cons, Act.isDispatchDM, countDispatchDM_nil]
    · rw [if_neg hact]
      simp only [processLoop]
      simp [countDispatchDM_cons, Act.isDispatchDM, countDispatchDM_nil]
  omega

/-- Parse environment for witnesses: every timestamp string parses, and the
current time renders as a fixed ISO string. -/
def penvW : ParseEnv := ⟨fun _ => true, "2026-01-01T00:00:00+00:00", rfl⟩

/-- Concrete well-formed webhook payload whose parse is `eventW`. -/
def payloadW : Json :=
  .obj [ ("id", .str "m1")
       , ("timestamp", .str "2026-01-01T00:00:00+00:00")
       , ("account_id", .str "acc1")
       , ("raw_payload", .obj [("changes", .arr [
           .obj [ ("field", .str "comments")
                , ("value", .obj [
                    ("from", .obj [("id", .str "u1"), ("username", .str "alice")]),
                    ("media", .obj [("id", .str "p1"), ("media_product_type", .str "REELS")]),
                    ("id", .str "c1"),
                    ("text", .str "Loved this, is it on SALE?")])]])])]

/-- The username-only profile produced when enrichment fails for `eventW`. -/
def profileWEmpty : CommenterProfile := { username := Json.str "alice" }

/-- Processing environment for witnesses: one active all-comments
automation, failing profile enrichment, successful dispatches, healthy
ledger. -/
def envC1a : ProcEnv :=
  { automations := [(autoAllW, some acctW)]
  , profileData := none
  , dmOk := fun _ => true
  , replyOk := fun _ => true
  , dmLogRaises := false
  , replyLogRaises := false }

/-- Ledger state after the first witness invocation. -/
def st1W : ProcState :=
  ⟨[mkDMRecord autoAllW eventW profileWEmpty true],
   [mkReplyRecord autoAllW eventW profileWEmpty true]⟩

/-- Trace of the first witness invocation. -/
def tr1W : List Act :=
  [ .queryAutomations, .dedupCheck, .fetchProfile, .dispatchDM, .dispatchReply
  , .recordReply (mkReplyRecord autoAllW eventW profileWEmpty true)
  , .recordDM (mkDMRecord autoAllW eventW profileWEmpty true) ]

/-- Witness for C1 at concrete inputs: replaying the same comment payload
after a first invocation that recorded a `sent` DM dispatches no second
DM — at most one dispatch happens across both invocations. -/
theorem C1_dedup_invariant_witness :
    countDispatchDM tr1W + countDispatchDM (process penvW envC1a payloadW st1W).2 ≤ 1 := by
  have hfil : st1W.dmLog.filter
      (dmRecordMatches autoAllW.id eventW.mediaId eventW.commenterId) =
      [mkDMRecord autoAllW eventW profileWEmpty true] := rfl
  refine C1_dedup_invariant.2.2 penvW penvW envC1a envC1a payloadW payloadW ⟨[], []⟩ st1W
    tr1W autoAllW acctW acctW eventW rfl rfl rfl rfl rfl ?_
  rw [hfil]
  exact List.cons_ne_nil _ _

/-- View of a processing outcome keeping only the DM ledger: `none` when
the run raised (the session is rolled back). -/
def dmLogView : Except Unit ProcState → Option (List DMRecord)
  | .ok s => some s.dmLog
  | .error _ => none

/-- The reply dispatch happens iff a DM dispatch happened and the gate
`dm_success and comment_reply_enabled and comment_reply_template` holds. -/
theorem processAutomation_reply_gate (env : ProcEnv) (e : CommentEvent) (a : Automation)
    (acct : InstagramAccount) (st : ProcState) :
    0 < countDispatchReply (processAutomation env e a acct st).2 ↔
      (0 < countDispatchDM (processAutomation env e a acct st).2 ∧
       (env.dmOk a && a.commentReplyEnabled && truthyOptStr a.commentReplyTemplate) = true) := by
  cases htrig : shouldTrigger a e with
  | error u =>
    simp [processAutomation, htrig, countDispatchReply, countDispatchDM]
  | ok b =>
    cases b with
    | false => simp [processAutomation, htrig, countDispatchReply, countDispatchDM]
    | true =>
      cases hs : alreadySentE st.dmLog a.id e.mediaId e.commenterId with
      | error u =>
        simp [processAutomation, htrig, hs, countDispatchReply, countDispatchDM,
          Act.isDispatchReply, Act.isDispatchDM]
      | ok sb =>
        cases sb with
        | true =>
          simp [processAutomation, htrig, hs, countDispatchReply, countDispatchDM,
            Act.isDispatchReply, Act.isDispatchDM]
        | false =>
          by_cases hg1 : (a.messageType == MessageType.text && !truthyOptStr a.dmMessageTemplate)
          · simp [processAutomation, htrig, hs, hg1, countDispatchReply, countDispatchDM,
              Act.isDispatchReply, Act.isDispatchDM]
          · by_cases hg2 : (a.messageType == MessageType.carousel && !truthyOptList a.carouselElements)
            · simp [processAutomation, htrig, hs, hg1, hg2, countDispatchReply,
                countDispatchDM, Act.isDispatchReply, Act.isDispatchDM]
            · have hcr := replyStep_countReply env e a (fetchCommenterProfile env e acct)
                (env.dmOk a) st.replyLog
              have hcd := replyStep_countDM env e a (fetchCommenterProfile env e acct)
                (env.dmOk a) st.replyLog
              cases hr : replyStep env e a (fetchCommenterProfile env e acct)
                  (env.dmOk a) st.replyLog with
              | mk res tr =>
                rw [hr] at hcr hcd
                simp only at hcr hcd
                cases res with
                | error u =>
                  by_cases hgate : (env.dmOk a && a.commentReplyEnabled &&
                      truthyOptStr a.commentReplyTemplate) = true <;>
                    simp [processAutomation, htrig, hs, hg1, hg2, hr, hgate,
                      countDispatchReply_cons, countDispatchDM_cons, Act.isDispatchReply,
                      Act.isDispatchDM, hcr, hcd, hgate]
                | ok rl' =>
                  by_cases hdr : env.dmLogRaises <;>
                  by_cases hgate : (env.dmOk a && a.commentReplyEnabled &&
                      truthyOptStr a.commentReplyTemplate) = true <;>
                    simp [processAutomation, htrig, hs, hg1, hg2, hr, hdr, hgate,
                      countDispatchReply_cons, countDispatchDM_cons,
                      countDispatchReply_append, countDispatchDM_append,
                      Act.isDispatchReply, Act.isDispatchDM, hcr, hcd,
                      countDispatchReply_nil, countDispatchDM_nil]

/-- Unfolding `_fetch_commenter_profile` as a function of the profile-API
outcome alone. -/
theorem fetchCommenterProfile_eq_data (env : ProcEnv) (e : CommentEvent)
    (acct : InstagramAccount) :
    fetchCommenterProfile env e acct =
      (match env.profileData with
       | none => { username := e.commenterUsername }
       | some d =>
         { username := e.commenterUsername
         , name := d.name
         , biography := d.biography
         , followersCount := d.followersCount
         , mediaCount := d.mediaCount
         , profilePictureUrl := d.profilePictureUrl }) := rfl

/-- The reply outcome influences neither the number of DM dispatches nor
the DM ledger: a reply failure does not undo or retry the DM. -/
theorem processAutomation_replyOk_irrelevant (env : ProcEnv) (ro : Automation → Bool)
    (e : CommentEvent) (a : Automation) (acct : InstagramAccount) (st : ProcState) :
    countDispatchDM (processAutomation { env with replyOk := ro } e a acct st).2 =
      countDispatchDM (processAutomation env e a acct st).2 ∧
    dmLogView (processAutomation { env with replyOk := ro } e a acct st).1 =
      dmLogView (processAutomation env e a acct st).1 := by
  cases htrig : shouldTrigger a e with
  | error u => simp [processAutomation, htrig]
  | ok b =>
    cases b with
    | false => simp [processAutomation, htrig]
    | true =>
      cases hs : alreadySentE st.dmLog a.id e.mediaId e.commenterId with
      | error u => simp [processAutomation, htrig, hs]
      | ok sb =>
        cases sb with
        | true => simp [processAutomation, htrig, hs]
        | false =>
          by_cases hg1 : (a.messageType == MessageType.text && !truthyOptStr a.dmMessageTemplate)
          · simp [processAutomation, htrig, hs, hg1]
          · by_cases hg2 : (a.messageType == MessageType.carousel && !truthyOptList a.carouselElements)
            · simp [processAutomation, htrig, hs, hg1, hg2]
            · by_cases hgate : (env.dmOk a && a.commentReplyEnabled &&
                  truthyOptStr a.commentReplyTemplate) = true
              · by_cases hrr : env.replyLogRaises
                · simp [processAutomation, htrig, hs, hg1, hg2, replyStep, hgate, hrr,
                    dmLogView]
                · by_cases hdr : env.dmLogRaises <;>
                    simp [processAutomation, htrig, hs, hg1, hg2, replyStep, hgate, hrr, hdr,
                      dmLogView, countDispatchDM_cons, countDispatchDM_append,
                      Act.isDispatchDM, countDispatchDM_nil, fetchCommenterProfile_eq_data]
              · by_cases hdr : env.dmLogRaises <;>
                  simp [processAutomation, htrig, hs, hg1, hg2, replyStep, hgate, hdr,
                    dmLogView, fetchCommenterProfile_eq_data]

/-- Claim **C2** (reply gating): (i) when the DM dispatch fails, the public reply
is never dispatched, whatever the automation's reply configuration; (ii)
the reply is dispatched iff a DM dispatch happened, it succeeded, reply is
enabled and a non-empty reply template exists; (iii) the reply outcome
affects neither the DM dispatch count nor the DM ledger — no rollback, no
retry of the DM. -/
theorem C2_reply_gating :
    (∀ (env : ProcEnv) (e : CommentEvent) (a : Automation) (acct : InstagramAccount)
       (st : ProcState), env.dmOk a = false →
      countDispatchReply (processAutomation env e a acct st).2 = 0) ∧
    (∀ (env : ProcEnv) (e : CommentEvent) (a : Automation) (acct : InstagramAccount)
       (st : ProcState),
      0 < countDispatchReply (processAutomation env e a acct st).2 ↔
        (0 < countDispatchDM (processAutomation env e a acct st).2 ∧
         (env.dmOk a && a.commentReplyEnabled && truthyOptStr a.commentReplyTemplate) = true)) ∧
    (∀ (env : ProcEnv) (ro : Automation → Bool) (e : CommentEvent) (a : Automation)
       (acct : InstagramAccount) (st : ProcState),
      countDispatchDM (processAutomation { env with replyOk := ro } e a acct st).2 =
        countDispatchDM (processAutomation env e a acct st).2 ∧
      dmLogView (processAutomation { env with replyOk := ro } e a acct st).1 =
        dmLogView (processAutomation env e a acct st).1) := by
  refine ⟨?_, processAutomation_reply_gate, processAutomation_replyOk_irrelevant⟩
  intro env e a acct st hdm
  by_contra hne
  have hpos : 0 < countDispatchReply (processAutomation env e a acct st).2 :=
    Nat.pos_of_ne_zero hne
  have := (processAutomation_reply_gate env e a acct st).mp hpos
  rw [hdm] at this
  simp at this

/-- Witness for C2 at concrete inputs: with a failing DM dispatch no reply
is sent even though the automation has reply enabled and templated; and
flipping the reply outcome leaves the DM dispatch count unchanged. -/
theorem C2_reply_gating_witness :
    countDispatchReply
      (processAutomation { envC1a with dmOk := fun _ => false } eventW autoKwW acctW
        ⟨[], []⟩).2 = 0 ∧
    countDispatchDM
      (processAutomation { envC1a with replyOk := fun _ => false } eventW autoAllW acctW
        ⟨[], []⟩).2 =
      countDispatchDM (processAutomation envC1a eventW autoAllW acctW ⟨[], []⟩).2 := by
  exact ⟨C2_reply_gating.1 _ eventW autoKwW acctW ⟨[], []⟩ rfl,
         (C2_reply_gating.2.2 envC1a (fun _ => false) eventW autoAllW acctW ⟨[], []⟩).1⟩

/-- Scan of a trace checking the spec's claimed order: every public-reply
dispatch must be preceded by a `sent` DM-ledger write. -/
def dmSentRecordedBeforeReplyAux : Bool → List Act → Bool
  | _, [] => true
  | seen, .dispatchReply :: rest => seen && dmSentRecordedBeforeReplyAux seen rest
  | seen, .recordDM r :: rest =>
      dmSentRecordedBeforeReplyAux (seen || (r.status == "sent")) rest
  | seen, _ :: rest => dmSentRecordedBeforeReplyAux seen rest

/-- Whether, in a trace, the `sent` DM record is written before any reply
dispatch — the order asserted by the spec's state machine. -/
def dmSentRecordedBeforeReply (tr : List Act) : Bool :=
  dmSentRecordedBeforeReplyAux false tr

/-- Counterexample to C3 at a concrete run: with a successful DM and a
configured reply, the trace dispatches the reply and writes the
reply-ledger row *before* writing the `sent` DM-ledger row, so the spec's
`dispatch_dm → record(DM, Sent) → maybe_reply` order does not hold. -/
theorem C3_ledger_order_counterexample :
    (processAutomation envC1a eventW autoAllW acctW ⟨[], []⟩).2 =
      [.dedupCheck, .fetchProfile, .dispatchDM, .dispatchReply,
       .recordReply (mkReplyRecord autoAllW eventW profileWEmpty true),
       .recordDM (mkDMRecord autoAllW eventW profileWEmpty true)] ∧
    dmSentRecordedBeforeReply (processAutomation envC1a eventW autoAllW acctW ⟨[], []⟩).2 =
      false :=
  ⟨rfl, rfl⟩

/-- Claim **C3 (amended)**: in the processing of one (event, automation) pair
whose DM dispatch succeeds with a configured reply and a healthy ledger,
the step order is dispatch_dm → dispatch_reply → record(Reply) →
record(DM, Sent): the `sent` DM-ledger row is written *after* the reply
block, not before it. -/
theorem C3_ledger_order :
    ∀ (env : ProcEnv) (e : CommentEvent) (a : Automation) (acct : InstagramAccount)
      (st : ProcState),
      shouldTrigger a e = .ok true →
      st.dmLog.filter (dmRecordMatches a.id e.mediaId e.commenterId) = [] →
      (a.messageType == MessageType.text && !truthyOptStr a.dmMessageTemplate) = false →
      (a.messageType == MessageType.carousel && !truthyOptList a.carouselElements) = false →
      env.dmOk a = true →
      a.commentReplyEnabled = true →
      truthyOptStr a.commentReplyTemplate = true →
      env.replyLogRaises = false →
      env.dmLogRaises = false →
      processAutomation env e a acct st =
        (.ok ⟨st.dmLog ++ [mkDMRecord a e (fetchCommenterProfile env e acct) true],
              st.replyLog ++
                [mkReplyRecord a e (fetchCommenterProfile env e acct) (env.replyOk a)]⟩,
         [.dedupCheck, .fetchProfile, .dispatchDM, .dispatchReply,
          .recordReply (mkReplyRecord a e (fetchCommenterProfile env e acct) (env.replyOk a)),
          .recordDM (mkDMRecord a e (fetchCommenterProfile env e acct) true)]) := by
  intro env e a acct st htrig hdedup hg1 hg2 hdm hre hrt hrr hdr
  rw [processAutomation_main env e a acct st htrig hdedup hg1 hg2]
  rw [replyStep_on env e a (fetchCommenterProfile env e acct) (env.dmOk a) st.replyLog
    (by simp [hdm, hre, hrt]) hrr]
  simp [hdr, hdm]

/-- Witness for the amended C3 at concrete inputs: the full success-path
trace, ending in the `sent` DM record after the reply actions. -/
theorem C3_ledger_order_witness :
    processAutomation envC1a eventW autoAllW acctW ⟨[], []⟩ =
      (.ok ⟨[mkDMRecord autoAllW eventW profileWEmpty true],
            [mkReplyRecord autoAllW eventW profileWEmpty true]⟩,
       [.dedupCheck, .fetchProfile, .dispatchDM, .dispatchReply,
        .recordReply (mkReplyRecord autoAllW eventW profileWEmpty true),
        .recordDM (mkDMRecord autoAllW eventW profileWEmpty true)]) := by
  have h := C3_ledger_order envC1a eventW autoAllW acctW ⟨[], []⟩
    rfl rfl rfl rfl rfl rfl rfl rfl rfl
  simpa using h

/-- Claim **C8** (best-effort enrichment): when the profile API call fails, the
enricher returns the username-only profile (it never raises past its
boundary — it is a total function), the DM is still dispatched, and the
single DM-ledger row written carries the event's username with empty
biography/follower fields. -/
theorem C8_best_effort_enrichment :
    ∀ (env : ProcEnv) (e : CommentEvent) (a : Automation) (acct : InstagramAccount)
      (st : ProcState),
      env.profileData = none →
      shouldTrigger a e = .ok true →
      st.dmLog.filter (dmRecordMatches a.id e.mediaId e.commenterId) = [] →
      (a.messageType == MessageType.text && !truthyOptStr a.dmMessageTemplate) = false →
      (a.messageType == MessageType.carousel && !truthyOptList a.carouselElements) = false →
      env.replyLogRaises = false →
      env.dmLogRaises = false →
      fetchCommenterProfile env e acct = { username := e.commenterUsername } ∧
      0 < countDispatchDM (processAutomation env e a acct st).2 ∧
      dmRecordsOf (processAutomation env e a acct st).2 =
        [{ automationId := a.id
         , postId := e.mediaId
         , commenterUserId := e.commenterId
         , commenterUsername := e.commenterUsername
         , commenterName := none
         , commenterBiography := none
         , commenterFollowersCount := none
         , commenterMediaCount := none
         , commenterProfilePictureUrl := none
         , commentId := e.commentId
         , status := if env.dmOk a then "sent" else "failed" }] := by
  intro env e a acct st hprof htrig hdedup hg1 hg2 hrr hdr
  have hfetch : fetchCommenterProfile env e acct = { username := e.commenterUsername } := by
    simp [fetchCommenterProfile, hprof]
  refine ⟨hfetch, ?_, ?_⟩ <;>
  · rw [processAutomation_main env e a acct st htrig hdedup hg1 hg2]
    by_cases hgate : (env.dmOk a && a.commentReplyEnabled &&
        truthyOptStr a.commentReplyTemplate) = true
    · rw [replyStep_on env e a (fetchCommenterProfile env e acct) (env.dmOk a)
        st.replyLog hgate hrr]
      simp [hdr, countDispatchDM_cons, Act.isDispatchDM, countDispatchDM_nil,
        dmRecordsOf, mkDMRecord, hfetch]
    · rw [replyStep_off env e a (fetchCommenterProfile env e acct) (env.dmOk a)
        st.replyLog (by simpa using hgate)]
      simp [hdr, countDispatchDM_cons, Act.isDispatchDM, countDispatchDM_nil,
        dmRecordsOf, mkDMRecord, hfetch]

/-- Witness for C8 at concrete inputs: with the profile API failing, the
DM still goes out and the logged row holds only the event's username. -/
theorem C8_best_effort_enrichment_witness :
    fetchCommenterProfile envC1a eventW acctW = { username := Json.str "alice" } ∧
    0 < countDispatchDM (processAutomation envC1a eventW autoAllW acctW ⟨[], []⟩).2 ∧
    dmRecordsOf (processAutomation envC1a eventW autoAllW acctW ⟨[], []⟩).2 =
      [{ automationId := autoAllW.id
       , postId := Json.str "p1"
       , commenterUserId := Json.str "u1"
       , commenterUsername := Json.str "alice"
       , commenterName := none
       , commenterBiography := none
       , commenterFollowersCount := none
       , commenterMediaCount := none
       , commenterProfilePictureUrl := none
       , commentId := Json.str "c1"
       , status := "sent" }] := by
  have h := C8_best_effort_enrichment envC1a eventW autoAllW acctW ⟨[], []⟩
    rfl rfl rfl rfl rfl rfl rfl
  simpa using h

/-- Lemma: `dict.get` on an object literal, unfolded. -/
theorem pyGetD_obj (fs : List (String × Json)) (k : String) (d : Json) :
    pyGetD (Json.obj fs) k d = .ok ((Json.lookup fs k).getD d) := rfl

/-- A successful structural parse forces the payload to be a JSON object. -/
theorem parseCore_obj {payload : Json} {pre : PreEvent}
    (h : parseCore payload = .ok pre) : ∃ fs, payload = Json.obj fs := by
  cases payload with
  | obj fs => exact ⟨fs, rfl⟩
  | null => simp [parseCore, pyGetD] at h
  | bool b => simp [parseCore, pyGetD] at h
  | num n => simp [parseCore, pyGetD] at h
  | str s => simp [parseCore, pyGetD] at h
  | arr xs => simp [parseCore, pyGetD] at h

/-- A payload whose decoded body is not a JSON object parses to `None`
(the first `.get` raises and is caught). -/
theorem parser_not_obj (env : ParseEnv) (payload : Json)
    (h : ∀ fs, payload ≠ Json.obj fs) :
    fromWebhookPayload env payload = none := by
  cases payload with
  | obj fs => exact absurd rfl (h fs)
  | null => simp [fromWebhookPayload, parseBody, parseCore, pyGetD, Except.toOption]
  | bool b => simp [fromWebhookPayload, parseBody, parseCore, pyGetD, Except.toOption]
  | num n => simp [fromWebhookPayload, parseBody, parseCore, pyGetD, Except.toOption]
  | str s => simp [fromWebhookPayload, parseBody, parseCore, pyGetD, Except.toOption]
  | arr xs => simp [fromWebhookPayload, parseBody, parseCore, pyGetD, Except.toOption]

/-- A payload with a falsy `changes` entry parses to `None`. -/
theorem parser_no_changes (env : ParseEnv) (payload raw cs : Json)
    (h1 : pyGetD payload "raw_payload" (Json.obj []) = .ok raw)
    (h2 : pyGetD raw "changes" (Json.arr []) = .ok cs)
    (h3 : cs.truthy = false) :
    fromWebhookPayload env payload = none := by
  simp [fromWebhookPayload, parseBody, parseCore, h1, h2, h3, Except.toOption]

/-- A payload whose first change is not tagged `"comments"` parses to
`None`. -/
theorem parser_wrong_tag (env : ParseEnv) (payload raw c fv : Json) (rest : List Json)
    (h1 : pyGetD payload "raw_payload" (Json.obj []) = .ok raw)
    (h2 : pyGetD raw "changes" (Json.arr []) = .ok (.arr (c :: rest)))
    (h3 : pyGetD c "field" Json.null = .ok fv)
    (h4 : jsonIsStr fv "comments" = false) :
    fromWebhookPayload env payload = none := by
  simp [fromWebhookPayload, parseBody, parseCore, h1, h2, h3, h4, pyIndex0, Json.truthy,
    Except.toOption]

/-- The parse result depends only on the first change entry and the
payload's top-level `id`, `account_id` and `timestamp`: entries after the
first change are ignored. -/
theorem parser_first_change_only (env : ParseEnv) (p₁ p₂ raw₁ raw₂ c : Json)
    (cs₁ cs₂ : List Json)
    (h1 : pyGetD p₁ "raw_payload" (Json.obj []) = .ok raw₁)
    (h2 : pyGetD p₂ "raw_payload" (Json.obj []) = .ok raw₂)
    (h3 : pyGetD raw₁ "changes" (Json.arr []) = .ok (.arr (c :: cs₁)))
    (h4 : pyGetD raw₂ "changes" (Json.arr []) = .ok (.arr (c :: cs₂)))
    (h5 : Json.getKey? p₁ "id" = Json.getKey? p₂ "id")
    (h6 : Json.getKey? p₁ "account_id" = Json.getKey? p₂ "account_id")
    (h7 : Json.getKey? p₁ "timestamp" = Json.getKey? p₂ "timestamp") :
    fromWebhookPayload env p₁ = fromWebhookPayload env p₂ := by
  obtain ⟨fs₁, rfl⟩ : ∃ fs, p₁ = Json.obj fs := by
    cases p₁ with
    | obj fs => exact ⟨fs, rfl⟩
    | null => simp [pyGetD] at h1
    | bool b => simp [pyGetD] at h1
    | num n => simp [pyGetD] at h1
    | str s => simp [pyGetD] at h1
    | arr xs => simp [pyGetD] at h1
  obtain ⟨fs₂, rfl⟩ : ∃ fs, p₂ = Json.obj fs := by
    cases p₂ with
    | obj fs => exact ⟨fs, rfl⟩
    | null => simp [pyGetD] at h2
    | bool b => simp [pyGetD] at h2
    | num n => simp [pyGetD] at h2
    | str s => simp [pyGetD] at h2
    | arr xs => simp [pyGetD] at h2
  simp only [Json.getKey?] at h5 h6 h7
  have hr1 : (Json.lookup fs₁ "raw_payload").getD (Json.obj []) = raw₁ := by
    simpa [pyGetD] using h1
  have hr2 : (Json.lookup fs₂ "raw_payload").getD (Json.obj []) = raw₂ := by
    simpa [pyGetD] using h2
  simp only [fromWebhookPayload, parseBody, parseCore, parseTimestamp, pyGetD_obj, hr1, hr2,
    h3, h4, pyIndex0, Json.truthy, List.isEmpty_cons, Bool.not_false, Bool.not_true,
    h5, h6, h7]

/-- Claim **C4** (parser contract): the parser returns `None` on a non-object
payload, on a falsy `changes` list and on a first change not tagged
`"comments"` (it never raises: it is a total function into `Option`); the
parse consults only the first change entry; and a `None` parse makes
`process` acknowledge without querying the automations table. -/
theorem C4_parser_contract :
    (∀ (env : ParseEnv) (payload : Json), (∀ fs, payload ≠ Json.obj fs) →
      fromWebhookPayload env payload = none) ∧
    (∀ (env : ParseEnv) (payload raw cs : Json),
      pyGetD payload "raw_payload" (Json.obj []) = .ok raw →
      pyGetD raw "changes" (Json.arr []) = .ok cs →
      cs.truthy = false →
      fromWebhookPayload env payload = none) ∧
    (∀ (env : ParseEnv) (payload raw c fv : Json) (rest : List Json),
      pyGetD payload "raw_payload" (Json.obj []) = .ok raw →
      pyGetD raw "changes" (Json.arr []) = .ok (.arr (c :: rest)) →
      pyGetD c "field" Json.null = .ok fv →
      jsonIsStr fv "comments" = false →
      fromWebhookPayload env payload = none) ∧
    (∀ (env : ParseEnv) (p₁ p₂ raw₁ raw₂ c : Json) (cs₁ cs₂ : List Json),
      pyGetD p₁ "raw_payload" (Json.obj []) = .ok raw₁ →
      pyGetD p₂ "raw_payload" (Json.obj []) = .ok raw₂ →
      pyGetD raw₁ "changes" (Json.arr []) = .ok (.arr (c :: cs₁)) →
      pyGetD raw₂ "changes" (Json.arr []) = .ok (.arr (c :: cs₂)) →
      Json.getKey? p₁ "id" = Json.getKey? p₂ "id" →
      Json.getKey? p₁ "account_id" = Json.getKey? p₂ "account_id" →
      Json.getKey? p₁ "timestamp" = Json.getKey? p₂ "timestamp" →
      fromWebhookPayload env p₁ = fromWebhookPayload env p₂) ∧
    (∀ (penv : ParseEnv) (env : ProcEnv) (payload : Json) (st : ProcState),
      fromWebhookPayload penv payload = none →
      process penv env payload st = (.ok (st, true), [])) :=
  ⟨parser_not_obj, parser_no_changes, parser_wrong_tag, parser_first_change_only,
   process_none⟩

/-- Payload with an empty `raw_payload` (no changes). -/
def payloadNoChanges : Json := .obj [("raw_payload", .obj [])]

/-- Payload whose first change carries a non-comment field tag. -/
def payloadWrongTag : Json :=
  .obj [("raw_payload", .obj [("changes", .arr [.obj [("field", .str "reactions")]])])]

/-- Variant of `payloadW` with a second change entry appended. -/
def payloadWTwoChanges : Json :=
  .obj [ ("id", .str "m1")
       , ("timestamp", .str "2026-01-01T00:00:00+00:00")
       , ("account_id", .str "acc1")
       , ("raw_payload", .obj [("changes", .arr [
           .obj [ ("field", .str "comments")
                , ("value", .obj [
                    ("from", .obj [("id", .str "u1"), ("username", .str "alice")]),
                    ("media", .obj [("id", .str "p1"), ("media_product_type", .str "REELS")]),
                    ("id", .str "c1"),
                    ("text", .str "Loved this, is it on SALE?")])],
           .obj [ ("field", .str "comments")
                , ("value", .obj [
                    ("from", .obj [("id", .str "u2"), ("username", .str "bob")]),
                    ("media", .obj [("id", .str "p9"), ("media_product_type", .str "FEED")]),
                    ("id", .str "c9"),
                    ("text", .str "second change, ignored")])]])])]

/-- Witness for C4 at concrete inputs: a string body, a payload without
changes and a wrong-tagged payload all parse to `None`; appending a second
change entry to `payloadW` leaves the parse unchanged; and `process`
acknowledges the changeless payload with an empty trace. -/
theorem C4_parser_contract_witness :
    fromWebhookPayload penvW (.str "garbage") = none ∧
    fromWebhookPayload penvW payloadNoChanges = none ∧
    fromWebhookPayload penvW payloadWrongTag = none ∧
    fromWebhookPayload penvW payloadWTwoChanges = fromWebhookPayload penvW payloadW ∧
    process penvW envC1a payloadNoChanges ⟨[], []⟩ = (.ok (⟨[], []⟩, true), []) := by
  refine ⟨C4_parser_contract.1 penvW (.str "garbage") (fun fs h => by cases h), ?_, ?_, ?_, ?_⟩
  · exact C4_parser_contract.2.1 penvW payloadNoChanges (.obj []) (.arr []) rfl rfl rfl
  · exact C4_parser_contract.2.2.1 penvW payloadWrongTag
      (.obj [("changes", .arr [.obj [("field", .str "reactions")]])])
      (.obj [("field", .str "reactions")]) (.str "reactions") [] rfl rfl rfl rfl
  · exact C4_parser_contract.2.2.2.1 penvW payloadWTwoChanges payloadW
      (.obj [("changes", .arr [
         .obj [ ("field", .str "comments")
              , ("value", .obj [
                  ("from", .obj [("id", .str "u1"), ("username", .str "alice")]),
                  ("media", .obj [("id", .str "p1"), ("media_product_type", .str "REELS")]),
                  ("id", .str "c1"),
                  ("text", .str "Loved this, is it on SALE?")])],
         .obj [ ("field", .str "comments")
              , ("value", .obj [
                  ("from", .obj [("id", .str "u2"), ("username", .str "bob")]),
                  ("media", .obj [("id", .str "p9"), ("media_product_type", .str "FEED")]),
                  ("id", .str "c9"),
                  ("text", .str "second change, ignored")])]])])
      (.obj [("changes", .arr [
         .obj [ ("field", .str "comments")
              , ("value", .obj [
                  ("from", .obj [("id", .str "u1"), ("username", .str "alice")]),
                  ("media", .obj [("id", .str "p1"), ("media_product_type", .str "REELS")]),
                  ("id", .str "c1"),
                  ("text", .str "Loved this, is it on SALE?")])]])])
      (.obj [ ("field", .str "comments")
            , ("value", .obj [
                ("from", .obj [("id", .str "u1"), ("username", .str "alice")]),
                ("media", .obj [("id", .str "p1"), ("media_product_type", .str "REELS")]),
                ("id", .str "c1"),
                ("text", .str "Loved this, is it on SALE?")])])
      [.obj [ ("field", .str "comments")
            , ("value", .obj [
                ("from", .obj [("id", .str "u2"), ("username", .str "bob")]),
                ("media", .obj [("id", .str "p9"), ("media_product_type", .str "FEED")]),
                ("id", .str "c9"),
                ("text", .str "second change, ignored")])]] [] rfl rfl rfl rfl rfl rfl rfl
  · exact C4_parser_contract.2.2.2.2 penvW envC1a payloadNoChanges ⟨[], []⟩
      (C4_parser_contract.2.1 penvW payloadNoChanges (.obj []) (.arr []) rfl rfl rfl)

/-- When the top-level `timestamp` key is absent, the parse falls back to
the ISO rendering of the current time. -/
theorem parseTimestamp_missing (env : ParseEnv) (fs : List (String × Json))
    (h : Json.lookup fs "timestamp" = none) :
    parseTimestamp env (.obj fs) = .ok (pyReplaceZ env.nowIso) := by
  simp [parseTimestamp, pyGetD, h, env.nowParsable]

/-- When the `timestamp` value is a string `fromisoformat` rejects, the
whole timestamp step raises. -/
theorem parseTimestamp_unparsable (env : ParseEnv) (fs : List (String × Json)) (s : String)
    (h : Json.lookup fs "timestamp" = some (.str s))
    (hbad : env.isoParsable (pyReplaceZ s) = false) :
    parseTimestamp env (.obj fs) = .error () := by
  simp [parseTimestamp, pyGetD, h, hbad]

/-- Claim **C9 (amended)**: for a payload whose structural parse succeeds, a
*missing* top-level timestamp falls back to the current time and an event
is still returned; but a *present, unparsable* timestamp string makes
`datetime.fromisoformat` raise inside the `try`, so the parse collapses to
`None` — there is no fallback for unparsable timestamps. -/
theorem C9_timestamp_fallback :
    (∀ (env : ParseEnv) (payload : Json) (pre : PreEvent),
      parseCore payload = .ok pre →
      Json.getKey? payload "timestamp" = none →
      fromWebhookPayload env payload =
        some ⟨pre.messageId, pre.accountId, pre.commentId, pre.commentText,
              pre.commenterId, pre.commenterUsername, pre.mediaId, pre.mediaType,
              pyReplaceZ env.nowIso⟩) ∧
    (∀ (env : ParseEnv) (payload : Json) (s : String),
      Json.getKey? payload "timestamp" = some (.str s) →
      env.isoParsable (pyReplaceZ s) = false →
      fromWebhookPayload env payload = none) := by
  constructor
  · intro env payload pre hcore hts
    obtain ⟨fs, rfl⟩ := parseCore_obj hcore
    simp only [Json.getKey?] at hts
    simp [fromWebhookPayload, parseBody, hcore, parseTimestamp_missing env fs hts,
      Except.toOption]
  · intro env payload s hts hbad
    cases payload with
    | obj fs =>
      simp only [Json.getKey?] at hts
      cases hcore : parseCore (.obj fs) with
      | error u => simp [fromWebhookPayload, parseBody, hcore, Except.toOption]
      | ok pre =>
        simp [fromWebhookPayload, parseBody, hcore,
          parseTimestamp_unparsable env fs s hts hbad, Except.toOption]
    | null => simp [Json.getKey?] at hts
    | bool b => simp [Json.getKey?] at hts
    | num n => simp [Json.getKey?] at hts
    | str sx => simp [Json.getKey?] at hts
    | arr xs => simp [Json.getKey?] at hts

/-- Parse environment that accepts exactly one ISO string: the rendering of
the current time.  `"garbage"` is rejected, mirroring
`datetime.fromisoformat("garbage")` raising `ValueError`. -/
def penvIso : ParseEnv :=
  ⟨fun s => s == "2026-01-01T00:00:00+00:00", "2026-01-01T00:00:00+00:00", by decide⟩

/-- Variant of `payloadW` with its timestamp replaced by an unparsable string. -/
def payloadBadTs : Json :=
  .obj [ ("id", .str "m1")
       , ("timestamp", .str "garbage")
       , ("account_id", .str "acc1")
       , ("raw_payload", .obj [("changes", .arr [
           .obj [ ("field", .str "comments")
                , ("value", .obj [
                    ("from", .obj [("id", .str "u1"), ("username", .str "alice")]),
                    ("media", .obj [("id", .str "p1"), ("media_product_type", .str "REELS")]),
                    ("id", .str "c1"),
                    ("text", .str "Loved this, is it on SALE?")])]])])]

/-- Counterexample to C9 as stated: this payload is otherwise well-formed
(its structural parse succeeds, first change tagged `"comments"`), its
timestamp is present but unparsable — and `from_webhook_payload` returns
`None` instead of an event carrying the current time. -/
theorem C9_timestamp_fallback_counterexample :
    parseCore payloadBadTs =
      .ok ⟨.str "m1", .str "acc1", .str "c1", .str "Loved this, is it on SALE?",
           .str "u1", .str "alice", .str "p1", .str "REELS"⟩ ∧
    fromWebhookPayload penvIso payloadBadTs = none :=
  ⟨rfl, rfl⟩

/-- Payload identical to `payloadW` but with no top-level timestamp. -/
def payloadNoTs : Json :=
  .obj [ ("id", .str "m1")
       , ("account_id", .str "acc1")
       , ("raw_payload", .obj [("changes", .arr [
           .obj [ ("field", .str "comments")
                , ("value", .obj [
                    ("from", .obj [("id", .str "u1"), ("username", .str "alice")]),
                    ("media", .obj [("id", .str "p1"), ("media_product_type", .str "REELS")]),
                    ("id", .str "c1"),
                    ("text", .str "Loved this, is it on SALE?")])]])])]

/-- Witness for the amended C9 at concrete inputs: with the timestamp key
absent the parse still succeeds and the event carries the current time. -/
theorem C9_timestamp_fallback_witness :
    fromWebhookPayload penvIso payloadNoTs =
      some ⟨.str "m1", .str "acc1", .str "c1", .str "Loved this, is it on SALE?",
            .str "u1", .str "alice", .str "p1", .str "REELS",
            pyReplaceZ penvIso.nowIso⟩ :=
  C9_timestamp_fallback.1 penvIso payloadNoTs
    ⟨.str "m1", .str "acc1", .str "c1", .str "Loved this, is it on SALE?",
     .str "u1", .str "alice", .str "p1", .str "REELS"⟩ rfl rfl

/-- A string-constructed JSON value equals itself under `jsonIsStr`. -/
theorem jsonIsStr_self (s : String) : jsonIsStr (.str s) s = true := by
  simp [jsonIsStr]

/-- Absence of any of the nested `value`/`from`/`media`/`id`/`text`
sub-fields is never by itself a parse failure: whenever the first change is
tagged `"comments"` and the three nested entries are objects (or absent,
defaulting to `{}`), the structural parse succeeds and every string field
is the stored value or the `""` default. -/
theorem parser_value_defaults (payload raw change : Json) (rest : List Json)
    (fsv fsf fsm : List (String × Json))
    (h1 : pyGetD payload "raw_payload" (Json.obj []) = .ok raw)
    (h2 : pyGetD raw "changes" (Json.arr []) = .ok (.arr (change :: rest)))
    (h3 : pyGetD change "field" Json.null = .ok (.str "comments"))
    (h4 : pyGetD change "value" (Json.obj []) = .ok (.obj fsv))
    (h5 : pyGetD (.obj fsv) "from" (Json.obj []) = .ok (.obj fsf))
    (h6 : pyGetD (.obj fsv) "media" (Json.obj []) = .ok (.obj fsm)) :
    parseCore payload =
      .ok ⟨jGetStrD payload "id", jGetStrD payload "account_id",
           jGetStrD (.obj fsv) "id", jGetStrD (.obj fsv) "text",
           jGetStrD (.obj fsf) "id", jGetStrD (.obj fsf) "username",
           jGetStrD (.obj fsm) "id", jGetStrD (.obj fsm) "media_product_type"⟩ := by
  obtain ⟨fs, rfl⟩ : ∃ fs, payload = Json.obj fs := by
    cases payload with
    | obj fs => exact ⟨fs, rfl⟩
    | null => simp [pyGetD] at h1
    | bool b => simp [pyGetD] at h1
    | num n => simp [pyGetD] at h1
    | str s => simp [pyGetD] at h1
    | arr xs => simp [pyGetD] at h1
  have hr : (Json.lookup fs "raw_payload").getD (Json.obj []) = raw := by
    simpa [pyGetD] using h1
  simp only [parseCore, pyGetD_obj, hr, h2, h3, h4, h5, h6, pyIndex0, Json.truthy,
    List.isEmpty_cons, Bool.not_false, jsonIsStr_self, Bool.not_true, jGetStrD]
  simp

/-- The minimal comment payload: only the `"comments"` tag is present. -/
def payloadMinimal : Json :=
  .obj [("raw_payload", .obj [("changes", .arr [.obj [("field", .str "comments")]])])]

/-- On the minimal payload every string field defaults to `""` and the
timestamp falls back to the current time. -/
theorem parser_minimal_defaults (env : ParseEnv) :
    fromWebhookPayload env payloadMinimal =
      some ⟨.str "", .str "", .str "", .str "", .str "", .str "", .str "", .str "",
            pyReplaceZ env.nowIso⟩ := by
  have hcore : parseCore payloadMinimal =
      .ok ⟨.str "", .str "", .str "", .str "", .str "", .str "", .str "", .str ""⟩ := rfl
  have hts : parseTimestamp env payloadMinimal = .ok (pyReplaceZ env.nowIso) :=
    parseTimestamp_missing env
      [("raw_payload", .obj [("changes", .arr [.obj [("field", .str "comments")]])])] rfl
  simp [fromWebhookPayload, parseBody, hcore, hts, Except.toOption]

/-- Claim **C10** (implicit parser defaulting): for every payload whose first
change is tagged `"comments"`, with `value`/`from`/`media` absent or
objects, the structural parse succeeds and each missing string field
defaults to `""` — absence of these sub-fields is never by itself a parse
failure; on the minimal payload the whole event consists of empty strings
(which flow downstream as trigger input and dedup keys). -/
theorem C10_parser_defaulting :
    (∀ (payload raw change : Json) (rest : List Json)
       (fsv fsf fsm : List (String × Json)),
      pyGetD payload "raw_payload" (Json.obj []) = .ok raw →
      pyGetD raw "changes" (Json.arr []) = .ok (.arr (change :: rest)) →
      pyGetD change "field" Json.null = .ok (.str "comments") →
      pyGetD change "value" (Json.obj []) = .ok (.obj fsv) →
      pyGetD (.obj fsv) "from" (Json.obj []) = .ok (.obj fsf) →
      pyGetD (.obj fsv) "media" (Json.obj []) = .ok (.obj fsm) →
      parseCore payload =
        .ok ⟨jGetStrD payload "id", jGetStrD payload "account_id",
             jGetStrD (.obj fsv) "id", jGetStrD (.obj fsv) "text",
             jGetStrD (.obj fsf) "id", jGetStrD (.obj fsf) "username",
             jGetStrD (.obj fsm) "id", jGetStrD (.obj fsm) "media_product_type"⟩) ∧
    (∀ env : ParseEnv,
      fromWebhookPayload env payloadMinimal =
        some ⟨.str "", .str "", .str "", .str "", .str "", .str "", .str "", .str "",
              pyReplaceZ env.nowIso⟩) :=
  ⟨parser_value_defaults, parser_minimal_defaults⟩

/-- Witness for C10 at concrete inputs: the minimal payload parses with
every field defaulted. -/
theorem C10_parser_defaulting_witness :
    parseCore payloadMinimal =
      .ok ⟨jGetStrD payloadMinimal "id", jGetStrD payloadMinimal "account_id",
           jGetStrD (.obj []) "id", jGetStrD (.obj []) "text",
           jGetStrD (.obj []) "id", jGetStrD (.obj []) "username",
           jGetStrD (.obj []) "id", jGetStrD (.obj []) "media_product_type"⟩ ∧
    fromWebhookPayload penvW payloadMinimal =
      some ⟨.str "", .str "", .str "", .str "", .str "", .str "", .str "", .str "",
            pyReplaceZ penvW.nowIso⟩ :=
  ⟨C10_parser_defaulting.1 payloadMinimal
      (.obj [("changes", .arr [.obj [("field", .str "comments")]])])
      (.obj [("field", .str "comments")]) [] [] [] [] rfl rfl rfl rfl rfl rfl,
   C10_parser_defaulting.2 penvW⟩

/-- Counterexample to C6 as stated: a broker message whose body is not
valid UTF-8 is certainly not valid JSON, yet the consumer does **not**
acknowledge and drop it — `UnicodeDecodeError` is not a `JSONDecodeError`,
falls to the generic handler, and the message is nack-requeued. -/
theorem C6_consumer_ack_counterexample :
    processMessage .notUtf8 (.ret true) = .nackRequeue ∧
    processMessage .notUtf8 (.ret true) ≠ .ack :=
  ⟨rfl, by decide⟩

/-- Claim **C6 (amended)**: the consumer acknowledges and drops a body that
decodes as UTF-8 text but is not valid JSON; a body that is not valid
UTF-8 raises before the JSON parse and is nack-requeued; for a decoded
payload it acknowledges exactly when the callback returns true and
nack-requeues on false or on an uncaught callback exception; and an
infrastructure failure inside `process` (which the worker catches,
returning false) ends in a negative acknowledgement with requeue. -/
theorem C6_consumer_ack :
    (∀ cb : CallbackRes, processMessage .utf8NotJson cb = .ack) ∧
    (∀ (j : Json) (b : Bool),
      processMessage (.decoded j) (.ret b) = (if b then .ack else .nackRequeue)) ∧
    (∀ j : Json, processMessage (.decoded j) .raiseExc = .nackRequeue) ∧
    (∀ cb : CallbackRes, processMessage .notUtf8 cb = .nackRequeue) ∧
    (∀ (penv : ParseEnv) (env : ProcEnv) (payload : Json) (st : ProcState),
      (process penv env payload st).1 = .error () →
      processMessage (.decoded payload)
        (.ret (workerProcessComment penv env payload st)) = .nackRequeue) := by
  refine ⟨fun cb => rfl, ?_, fun j => rfl, fun cb => rfl, ?_⟩
  · intro j b
    cases b <;> rfl
  · intro penv env payload st herr
    simp [workerProcessComment, herr, processMessage]

/-- Environment whose DM-ledger flush raises (database outage). -/
def envInfra : ProcEnv := { envC1a with dmLogRaises := true }

/-- Witness for the amended C6 at concrete inputs: with the DM-ledger
flush raising, `process` propagates the failure, the worker returns false,
and the consumer nack-requeues the message. -/
theorem C6_consumer_ack_witness :
    processMessage (.decoded payloadW)
      (.ret (workerProcessComment penvW envInfra payloadW ⟨[], []⟩)) = .nackRequeue :=
  C6_consumer_ack.2.2.2.2 penvW envInfra payloadW ⟨[], []⟩ rfl

/-- A well-formed carousel card used in the C7 construction. -/
def elemW : CarouselElement :=
  { title := "Card"
  , subtitle := none
  , imageUrl := none
  , buttons := [{ btnType := "web_url", url := "https://shop.example/x", title := "Open" }] }

/-- A persisted carousel automation with one element. -/
def autoCarW : Automation :=
  { autoKwW with
    id := 3
    messageType := .carousel
    dmMessageTemplate := none
    carouselElements := some [elemW] }

/-- An update request carrying eleven valid carousel elements. -/
def updEleven : AutomationUpdate :=
  { carouselElements := some (some (List.replicate 11 elemW)) }

/-- Counterexample to C7 as stated: the update surface re-validates no
cross-field invariant — an `AutomationUpdate` carrying eleven elements
passes the update schema's field validation, and applying it through
`AutomationRepository.update` yields a persisted carousel automation with
11 elements, violating the ≤ 10 invariant. -/
theorem C7_carousel_bounds_counterexample :
    updateFieldsValid updEleven = true ∧
    (applyUpdate autoCarW updEleven).messageType = MessageType.carousel ∧
    ((applyUpdate autoCarW updEleven).carouselElements.getD []).length = 11 ∧
    messageContentInvariant (applyUpdate autoCarW updEleven).messageType
      (applyUpdate autoCarW updEleven).dmMessageTemplate
      (applyUpdate autoCarW updEleven).carouselElements = false := by
  refine ⟨by decide, rfl, by decide, by decide⟩

/-- A carousel create payload over a given element list, with all other
fields valid. -/
def mkCarCreate (els : List CarouselElement) : AutomationCreate :=
  { instagramAccountId := 1
  , name := "carousel automation"
  , postId := "p1"
  , triggerType := .allComments
  , keywords := none
  , messageType := .carousel
  , dmMessageTemplate := none
  , carouselElements := some els
  , commentReplyEnabled := false
  , commentReplyTemplate := none }

/-- Claim **C7 (amended)**: at create time the carousel bounds hold — a missing,
empty or > 10 element list is rejected by `validate_message_content`, and
1 and 10 valid elements are accepted — and every payload admitted by the
*create* schema satisfies the §3 message-content invariant; the *update*
schema, however, performs no such validation (see the counterexample), so
the invariant is only guaranteed for creations. -/
theorem C7_carousel_bounds :
    (∀ d : AutomationCreate, d.messageType = MessageType.carousel →
      (d.carouselElements = none ∨ d.carouselElements = some [] ∨
       (∃ els, d.carouselElements = some els ∧ 10 < els.length)) →
      validateMessageContent d = false) ∧
    (createAccepted (mkCarCreate [elemW]) = true ∧
     createAccepted (mkCarCreate (List.replicate 10 elemW)) = true ∧
     createAccepted (mkCarCreate []) = false ∧
     createAccepted (mkCarCreate (List.replicate 11 elemW)) = false) ∧
    (∀ d : AutomationCreate, createAccepted d = true →
      messageContentInvariant d.messageType d.dmMessageTemplate d.carouselElements = true) := by
  refine ⟨?_, ⟨by decide, by decide, by decide, by decide⟩, ?_⟩
  · intro d hmt hbad
    rcases hbad with hc | hc | ⟨els, hc, hlen⟩
    · simp [validateMessageContent, hmt, hc]
    · simp [validateMessageContent, hmt, hc]
    · simp [validateMessageContent, hmt, hc]
      omega
  · intro d hacc
    have hv : validateMessageContent d = true := by
      have h := hacc
      simp [createAccepted] at h
      exact h.2
    cases hmt : d.messageType with
    | text =>
      cases ht : d.dmMessageTemplate with
      | none => simp [validateMessageContent, hmt, ht] at hv
      | some t =>
        simp [validateMessageContent, hmt, ht] at hv
        simp [messageContentInvariant, hmt, ht, truthyOptStr, hv.1]
    | carousel =>
      cases hc : d.carouselElements with
      | none => simp [validateMessageContent, hmt, hc] at hv
      | some els =>
        simp only [validateMessageContent, hmt, hc, Bool.and_eq_true] at hv
        obtain ⟨hne, hle⟩ := hv
        cases els with
        | nil => simp at hne
        | cons x xs =>
          simp only [messageContentInvariant, hmt, hc, Bool.and_eq_true]
          simp only [decide_eq_true_eq] at hle ⊢
          refine ⟨by simp, ?_⟩
          exact hle

/-- Witness for the amended C7 at concrete inputs: eleven elements are
rejected at create time, and the accepted one-element create satisfies the
invariant. -/
theorem C7_carousel_bounds_witness :
    validateMessageContent (mkCarCreate (List.replicate 11 elemW)) = false ∧
    messageContentInvariant (mkCarCreate [elemW]).messageType
      (mkCarCreate [elemW]).dmMessageTemplate
      (mkCarCreate [elemW]).carouselElements = true :=
  ⟨C7_carousel_bounds.1 (mkCarCreate (List.replicate 11 elemW)) rfl
     (Or.inr (Or.inr ⟨List.replicate 11 elemW, rfl, by decide⟩)),
   C7_carousel_bounds.2.2 (mkCarCreate [elemW]) (by decide)⟩
